import Mathlib

/-!
Verification development for the FM24 Matchday Playbook decision pipeline.

Shallow embedding of the domain modules:
  - `src/domain/models.py`      (data model)
  - `src/domain/tone_matrix.py` (tone weighting engine)
  - `src/domain/synergy.py`     (gesture-tone synergy)
  - `src/domain/rules_engine.py` (rule matcher and adjustment pipeline)

Python floats are embedded as exact rationals (ℚ); the decimal constants of
the source are small and the claims' comparisons are robust to this
idealization.  `round(x, 3)` is embedded as `round3`.  External JSON data
(rule packs, special overrides, reaction rules, gesture catalogs, statement
banks) are parameters of the embedding, collected in `Config`; numeric
engine configuration is embedded with the code's own documented defaults
(the loaders fall back to those defaults when the JSON files are absent).
The repository snapshot's `src/domain/models.py` is a superseded version:
it lacks `FavTier`, the `trace` field of `Recommendation` and the live-stat
fields of `Context`, all of which `rules_engine.py` imports and uses (and
the repository's tests exercise).  Those members are modelled from the spec
where noted.  Uncaught Python exceptions are modelled by `Except.error`.
-/

namespace Playbook

/-- Match stages, from `MatchStage` in models.py. -/
inductive MatchStage
  | preMatch | early | mid | halfTime | late | veryLate | fullTime
  | etFirstHalf | etHalfTime | etSecondHalf | preShootout
deriving DecidableEq, Repr

/-- Favourite/underdog status, from `FavStatus` in models.py. -/
inductive FavStatus
  | favourite | underdog
deriving DecidableEq, Repr

/-- Venue, from `Venue` in models.py. -/
inductive Venue
  | home | away
deriving DecidableEq, Repr

/-- Score state, from `ScoreState` in models.py. -/
inductive ScoreState
  | winning | drawing | losing
deriving DecidableEq, Repr

/-- Special situations, from `SpecialSituation` in models.py
(`noneTag` embeds the member named "None"). -/
inductive SpecialSituation
  | derby | cup | final | promotion | relegation | downTo10 | opponentDownTo10 | noneTag
deriving DecidableEq, Repr

/-- Team mentality, from `Mentality` in models.py. -/
inductive Mentality
  | defensive | cautious | balanced | positive | attacking | veryAttacking
deriving DecidableEq, Repr

/-- Touchline shouts, from `Shout` in models.py (`Shout.none` is the "None" member). -/
inductive Shout
  | encourage | demandMore | focus | fireUp | praise | none
deriving DecidableEq, Repr

/-- Player reactions, from `PlayerReaction` in models.py. -/
inductive PlayerReaction
  | complacent | nervous | lackingBelief | firedUp | switchedOff
deriving DecidableEq, Repr

/-- Talk audiences, from `TalkAudience` in models.py. -/
inductive TalkAudience
  | team | defence | midfield | attack | individual | bench | leaders
deriving DecidableEq, Repr

/-- Modelled from the spec: the `FavTier` enumeration (strong/slight favourite,
even, slight/strong underdog) that `rules_engine.py` imports from models; the
snapshot's models.py does not declare it. -/
inductive FavTier
  | strongFavourite | slightFavourite | even | slightUnderdog | strongUnderdog
deriving DecidableEq, Repr

/-- Match context, from the `Context` dataclass in models.py.  Form strings are
lists of characters; ints are ℤ, floats ℚ.  The live-stat fields after
`unit_ratings` are modelled from the spec ("optional live stats (possession %,
shots/ shots-on-target for & against, expected-goals for & against)"): the
snapshot's models.py lacks them while rules_engine.py reads them. -/
structure Context where
  stage : MatchStage
  fav_status : FavStatus
  venue : Venue
  score_state : Option ScoreState := Option.none
  special_situations : List SpecialSituation := []
  player_reactions : List PlayerReaction := []
  team_position : Option Int := Option.none
  opponent_position : Option Int := Option.none
  team_form : Option (List Char) := Option.none
  opponent_form : Option (List Char) := Option.none
  team_goals : Option Int := Option.none
  opponent_goals : Option Int := Option.none
  auto_fav_status : Bool := false
  preferred_talk_audience : Option TalkAudience := Option.none
  morale_trend : Option Int := Option.none
  ht_score_delta : Option Int := Option.none
  xthreat_delta : Option ℚ := Option.none
  cards_yellow : Nat := 0
  cards_red : Nat := 0
  injuries : Nat := 0
  unit_ratings : Option (List (String × ℚ)) := Option.none
  possession_pct : Option ℚ := Option.none
  shots_for : Option Int := Option.none
  shots_against : Option Int := Option.none
  shots_on_target_for : Option Int := Option.none
  shots_on_target_against : Option Int := Option.none
  xg_for : Option ℚ := Option.none
  xg_against : Option ℚ := Option.none
deriving DecidableEq, Repr

/-- Alternative suggestions carried by a Recommendation (the "safer"/"bolder"
dict entries built in `recommend`; the ML-tagged variants are not produced
under the default configuration, where inference is disabled). -/
inductive Alt
  | safer (tones : List (String × List String))
  | bolder (tones : List (String × List String))
deriving DecidableEq, Repr

/-- Tactical recommendation, from the `Recommendation` dataclass in models.py.
`unit_notes` embeds the dict as an ordered association list.  `trace` is
modelled from the spec ("ordered audit trace of every pipeline decision"): the
snapshot's models.py lacks it while rules_engine.py appends to it throughout
(and the tests read `rec.trace`).  Human-readable number formatting inside
trace/notes strings is elided to fixed text where noted. -/
structure Recommendation where
  mentality : Mentality
  team_talk : String
  gesture : String
  shout : Shout
  talk_audience : Option TalkAudience := Option.none
  notes : List String := []
  confidence : ℚ := 0
  risk : String := "neutral"
  alternatives : List Alt := []
  nudges : List String := []
  unit_notes : List (String × String) := []
  trace : List String := []
deriving DecidableEq, Repr

/-- Rule condition, from `RuleCondition` in models.py.  The optional `tier`
set is modelled from the spec ("tier membership set"): `pick_base_rule` reads
it via `getattr(w, 'tier', None)` while the snapshot's models.py lacks the
field. -/
structure RuleCondition where
  stage : MatchStage
  favStatus : Option FavStatus := Option.none
  venue : Option Venue := Option.none
  scoreState : Option ScoreState := Option.none
  special : Option (List SpecialSituation) := Option.none
  tier : Option (List FavTier) := Option.none
deriving DecidableEq, Repr

/-- Recommendation part of a rule, from `RuleRecommendation` in models.py. -/
structure RuleRecommendation where
  mentality : Mentality
  teamTalk : String
  gesture : String
  shout : Shout
  audience : Option TalkAudience := Option.none
  notes : List String := []
deriving DecidableEq, Repr

/-- A playbook rule, from `PlaybookRule` in models.py. -/
structure PlaybookRule where
  when : RuleCondition
  recommendation : RuleRecommendation
deriving DecidableEq, Repr

/-- Reaction adjustment, from `ReactionAdjustment` in models.py. -/
structure ReactionAdjustment where
  teamTalk : Option String := Option.none
  gesture : Option String := Option.none
  shout : Option Shout := Option.none
  mentalityDelta : Int := 0
  notes : List String := []
deriving DecidableEq, Repr

/-- Reaction rule, from `ReactionRule` in models.py. -/
structure ReactionRule where
  reaction : PlayerReaction
  adjustment : ReactionAdjustment
deriving DecidableEq, Repr

/-- Special-situation override, from `SpecialOverride` in models.py. -/
structure SpecialOverride where
  teamTalk : Option String := Option.none
  gesture : Option String := Option.none
  shout : Option Shout := Option.none
  mentality : Option Mentality := Option.none
deriving DecidableEq, Repr

/-- Special-situation rule, from `SpecialRule` in models.py; the overrides
dict is an ordered association list keyed by the context-synopsis key. -/
structure SpecialRule where
  tag : SpecialSituation
  overrides : List (String × SpecialOverride)
deriving DecidableEq, Repr

/-- `MENTALITY_TO_VALUE` from rules_engine.py. -/
def mentality_to_value : Mentality → Int
  | .defensive => -2
  | .cautious => -1
  | .balanced => 0
  | .positive => 1
  | .attacking => 2
  | .veryAttacking => 3

/-- `VALUE_TO_MENTALITY` from rules_engine.py (total on the clamped range
[-2,3]; `clamp_mentality` only ever queries it there). -/
def value_to_mentality (v : Int) : Mentality :=
  if v ≤ -2 then .defensive
  else if v = -1 then .cautious
  else if v = 0 then .balanced
  else if v = 1 then .positive
  else if v = 2 then .attacking
  else .veryAttacking

/-- `clamp_mentality` from rules_engine.py. -/
def clamp_mentality (v : Int) : Mentality :=
  value_to_mentality (max (min v 3) (-2))

/-- The three talk stages (PreMatch/HalfTime/FullTime), the repeated stage
guard of rules_engine.py. -/
def is_talk_stage (s : MatchStage) : Bool :=
  s = MatchStage.preMatch ∨ s = MatchStage.halfTime ∨ s = MatchStage.fullTime

/-- Python `round(x, 3)`: round to 3 decimal places. -/
def round3 (q : ℚ) : ℚ := (round (q * 1000) : ℤ) / 1000

/- ## Tone matrix (src/domain/tone_matrix.py)

The tone vocabulary is the module's fallback list
["calm", "assertive", "motivational", "relaxed", "aggressive"] (the external
catalogs.json is absent and the adjustment code hard-codes exactly these
keys); the weight dict is embedded as a structure whose field order is the
dict's insertion order. -/

/-- The per-tone weight map of tone_matrix.py, in dict insertion order. -/
structure ToneWeights where
  calm : ℚ
  assertive : ℚ
  motivational : ℚ
  relaxed : ℚ
  aggressive : ℚ
deriving DecidableEq, Repr

/-- Venue adjustment of `_base_weights`. -/
def venue_step (ctx : Context) (w : ToneWeights) : ToneWeights :=
  if ctx.venue = Venue.away then
    { w with calm := w.calm + 3/10, motivational := w.motivational + 1/5,
             assertive := w.assertive - 3/20, aggressive := w.aggressive - 1/4,
             relaxed := w.relaxed + 1/10 }
  else -- Venue.home
    { w with assertive := w.assertive + 1/5, motivational := w.motivational + 1/5 }

/-- Favourite/underdog adjustment of `_base_weights`. -/
def status_step (ctx : Context) (w : ToneWeights) : ToneWeights :=
  if ctx.fav_status = FavStatus.favourite then
    { w with assertive := w.assertive + 1/5, motivational := w.motivational + 1/10 }
  else
    { w with calm := w.calm + 1/5, motivational := w.motivational + 1/5 }

/-- Derby adjustment of `_base_weights`. -/
def derby_step (ctx : Context) (w : ToneWeights) : ToneWeights :=
  if SpecialSituation.derby ∈ ctx.special_situations then
    { w with motivational := w.motivational + 1/5, aggressive := w.aggressive - 1/5 }
  else w

/-- Final adjustment of `_base_weights`. -/
def final_step (ctx : Context) (w : ToneWeights) : ToneWeights :=
  if SpecialSituation.final ∈ ctx.special_situations then
    { w with calm := w.calm + 1/5, relaxed := w.relaxed + 1/10,
             assertive := w.assertive - 1/10, aggressive := w.aggressive - 1/5 }
  else w

/-- Cup adjustment of `_base_weights`. -/
def cup_step (ctx : Context) (w : ToneWeights) : ToneWeights :=
  if SpecialSituation.cup ∈ ctx.special_situations then
    { w with motivational := w.motivational + 3/20 }
  else w

/-- `_base_weights`: neutral baseline 1.0 per tone, then venue, status and
special-situation adjustments. -/
def base_weights (ctx : Context) : ToneWeights :=
  cup_step ctx (final_step ctx (derby_step ctx (status_step ctx (venue_step ctx ⟨1, 1, 1, 1, 1⟩))))

/-- Morale-trend adjustment of `_apply_dynamic_signals`. -/
def morale_step (ctx : Context) (w : ToneWeights) : ToneWeights :=
  match ctx.morale_trend with
  | Option.none => w
  | some m =>
    if m ≤ -1 then
      { w with motivational := w.motivational + 3/10, calm := w.calm + 1/5,
               assertive := w.assertive - 1/10 }
    else if m ≥ 1 then
      { w with assertive := w.assertive + 3/20, motivational := w.motivational + 3/20 }
    else w

/-- Stage-appropriate score delta of `_apply_dynamic_signals`: the explicit
half-time delta at HalfTime/PreMatch/FullTime, otherwise the live goal delta
when both goal counts are present. -/
def stage_delta (ctx : Context) : Option Int :=
  if ctx.stage = MatchStage.halfTime ∨ ctx.stage = MatchStage.preMatch ∨
     ctx.stage = MatchStage.fullTime then
    ctx.ht_score_delta
  else
    match ctx.team_goals, ctx.opponent_goals with
    | some t, some o => some (t - o)
    | _, _ => Option.none

/-- Score-delta adjustment of `_apply_dynamic_signals`, including the
inversion for an away favourite trailing at half-time. -/
def delta_step (ctx : Context) (w : ToneWeights) : ToneWeights :=
  match stage_delta ctx with
  | Option.none => w
  | some d =>
    if d < 0 then
      if ctx.stage = MatchStage.halfTime ∧ ctx.venue = Venue.away ∧
         ctx.fav_status = FavStatus.favourite then
        { w with motivational := w.motivational + 1/5 - 1/10,
                 calm := w.calm + 1/10 + 1/5,
                 assertive := w.assertive + 1/20 + 1/20 }
      else
        { w with motivational := w.motivational + 1/5, calm := w.calm + 1/10,
                 assertive := w.assertive + 1/20 }
    else if d > 0 then
      { w with calm := w.calm + 1/5, relaxed := w.relaxed + 1/10 }
    else w

/-- Expected-threat adjustment of `_apply_dynamic_signals`. -/
def xthreat_step (ctx : Context) (w : ToneWeights) : ToneWeights :=
  match ctx.xthreat_delta with
  | Option.none => w
  | some x =>
    if x ≥ 1/4 then
      { w with assertive := w.assertive + 1/5, motivational := w.motivational + 1/5 }
    else if x ≤ -(1/4) then
      { w with calm := w.calm + 1/5, motivational := w.motivational + 1/5 }
    else w

/-- Red-card adjustment of `_apply_dynamic_signals`. -/
def red_step (ctx : Context) (w : ToneWeights) : ToneWeights :=
  if ctx.cards_red > 0 then
    { w with calm := w.calm + 3/10, motivational := w.motivational + 1/5,
             aggressive := w.aggressive - 3/10 }
  else w

/-- Yellow-card adjustment of `_apply_dynamic_signals`. -/
def yellow_step (ctx : Context) (w : ToneWeights) : ToneWeights :=
  if ctx.cards_yellow ≥ 3 then
    { w with calm := w.calm + 1/10, assertive := w.assertive - 1/20,
             aggressive := w.aggressive - 1/10 }
  else w

/-- Injury adjustment of `_apply_dynamic_signals`. -/
def injury_step (ctx : Context) (w : ToneWeights) : ToneWeights :=
  if ctx.injuries ≥ 2 then
    { w with motivational := w.motivational + 1/5, calm := w.calm + 1/10 }
  else w

/-- `_base_weights` followed by `_apply_dynamic_signals`. -/
def dynamic_weights (ctx : Context) : ToneWeights :=
  injury_step ctx (yellow_step ctx (red_step ctx (xthreat_step ctx
    (delta_step ctx (morale_step ctx (base_weights ctx))))))

/-- The 0.01 floor of `_normalize` ("clamp negatives to a small floor"). -/
def clamp_floor (q : ℚ) : ℚ := max q (1/100)

/-- Sum of the five tone weights. -/
def weights_sum (w : ToneWeights) : ℚ :=
  w.calm + w.assertive + w.motivational + w.relaxed + w.aggressive

/-- `_normalize` from tone_matrix.py: floor every weight at 0.01, divide by
the sum, round each quotient to 3 decimals. -/
def normalize (w : ToneWeights) : ToneWeights :=
  let c : ToneWeights :=
    ⟨clamp_floor w.calm, clamp_floor w.assertive, clamp_floor w.motivational,
     clamp_floor w.relaxed, clamp_floor w.aggressive⟩
  let s := weights_sum c
  ⟨round3 (c.calm / s), round3 (c.assertive / s), round3 (c.motivational / s),
   round3 (c.relaxed / s), round3 (c.aggressive / s)⟩

/-- `ctx.ht_score_delta is not None and ctx.ht_score_delta < 0`
(the trailing-at-half-time test of `_disallow`). -/
def ht_delta_negative (ctx : Context) : Bool :=
  match ctx.ht_score_delta with
  | some d => d < 0
  | Option.none => false

/-- An unconditional `dis.append(t)` under a condition (`_disallow`'s plain
appends). -/
def add_tone (cond : Prop) [Decidable cond] (t : String) (l : List String) : List String :=
  if cond then l ++ [t] else l

/-- A `if t not in dis: dis.append(t)` append under a condition (`_disallow`'s
guarded appends). -/
def add_tone_once (cond : Prop) [Decidable cond] (t : String) (l : List String) : List String :=
  if cond ∧ t ∉ l then l ++ [t] else l

/-- `_disallow`, after its pre-match append: avoid aggressive pre-match. -/
def disallow_step1 (ctx : Context) : List String :=
  add_tone (ctx.stage = MatchStage.preMatch) "aggressive" []

/-- ... after the full-time append: avoid aggressive when an away underdog
drew or won. -/
def disallow_step2 (ctx : Context) : List String :=
  add_tone
    (ctx.stage = MatchStage.fullTime ∧ ctx.fav_status = FavStatus.underdog ∧
     ctx.venue = Venue.away ∧ ctx.team_goals.getD 0 ≥ ctx.opponent_goals.getD 0)
    "aggressive" (disallow_step1 ctx)

/-- ... after the red-card append. -/
def disallow_step3 (ctx : Context) : List String :=
  add_tone_once (ctx.cards_red > 0) "aggressive" (disallow_step2 ctx)

/-- ... after the away-underdog-at-half-time append. -/
def disallow_step4 (ctx : Context) : List String :=
  add_tone_once
    (ctx.stage = MatchStage.halfTime ∧ ctx.venue = Venue.away ∧
     ctx.fav_status = FavStatus.underdog)
    "aggressive" (disallow_step3 ctx)

/-- ... after the away-favourite-trailing-at-half-time append: avoid
"motivational" (it can read as praise). -/
def disallow_step5 (ctx : Context) : List String :=
  add_tone_once
    (ctx.stage = MatchStage.halfTime ∧ ctx.venue = Venue.away ∧
     ctx.fav_status = FavStatus.favourite ∧ ht_delta_negative ctx)
    "motivational" (disallow_step4 ctx)

/-- ... after the underdog-at-half-time append. -/
def disallow_step6 (ctx : Context) : List String :=
  add_tone_once
    (ctx.stage = MatchStage.halfTime ∧ ctx.fav_status = FavStatus.underdog)
    "aggressive" (disallow_step5 ctx)

/-- `_disallow` from tone_matrix.py: the guardrail list, built by the ordered
appends of the source (steps 1-6 above followed by the Final append). -/
def disallow_list (ctx : Context) : List String :=
  add_tone_once (SpecialSituation.final ∈ ctx.special_situations) "aggressive"
    (disallow_step6 ctx)

/-- `select_tones` from tone_matrix.py: normalized weights plus disallow list
(the weights map is returned as computed; the disallow list does not zero
entries in it). -/
def select_tones (ctx : Context) : ToneWeights × List String :=
  (normalize (dynamic_weights ctx), disallow_list ctx)

/- ## Gesture-tone synergy (src/domain/synergy.py) and catalogs

The gesture catalog ("gestures" in catalogs.json, tone → gesture list) is an
external collaborator; it is embedded as an ordered association list. -/

/-- Ordered association-list lookup (Python dict `.get`). -/
def lookup_assoc {α β : Type} [DecidableEq α] (l : List (α × β)) (k : α) : Option β :=
  (l.find? (fun p => decide (p.1 = k))).map (fun p => p.2)

/-- `gesture_tone` from synergy.py (same logic as `_gesture_tone` in
rules_engine.py): first tone whose gesture list contains the gesture,
falling back to "calm". -/
def gesture_tone (cats : List (String × List String)) (g : String) : String :=
  match cats.find? (fun p => decide (g ∈ p.2)) with
  | some p => p.1
  | Option.none => "calm"

/-- `score_synergy` from synergy.py: 0..1 compatibility of a gesture with a
target tone in context. -/
def score_synergy (cats : List (String × List String)) (target_tone : String)
    (g : String) (ctx : Context) : ℚ :=
  let g_tone := gesture_tone cats g
  let score : ℚ := 1/2
  let score := if g_tone = target_tone then score + 3/10 else score
  let score :=
    if (g_tone = "calm" ∧ (target_tone = "assertive" ∨ target_tone = "angry")) ∨
       (target_tone = "calm" ∧ (g_tone = "assertive" ∨ g_tone = "angry")) then
      score - 1/5
    else score
  let score :=
    if ctx.fav_status = FavStatus.favourite ∧
       (target_tone = "assertive" ∨ target_tone = "motivational") then
      score + 1/20
    else score
  let score :=
    if ctx.fav_status = FavStatus.underdog ∧
       (target_tone = "calm" ∨ target_tone = "encourage") then
      score + 1/20
    else score
  let score := if ctx.stage = MatchStage.preMatch ∧ target_tone = "angry" then score - 1/5 else score
  max 0 (min 1 (round3 score))

/-- `suggest_gestures` from synergy.py: catalog gestures of a tone, defaulting
to ["Hands Together"]. -/
def suggest_gestures (cats : List (String × List String)) (tone : String) : List String :=
  (lookup_assoc cats tone).getD ["Hands Together"]

/-- The tone-weight dict as its ordered item list (dict insertion order of
`_base_weights`). -/
def tone_items (w : ToneWeights) : List (String × ℚ) :=
  [("calm", w.calm), ("assertive", w.assertive), ("motivational", w.motivational),
   ("relaxed", w.relaxed), ("aggressive", w.aggressive)]

/-- Python `max(tone_weights.items(), key=weight)`: the first item of maximal
weight in iteration order. -/
def top_tone_item (w : ToneWeights) : String × ℚ :=
  ((tone_items w).tail).foldl (fun best x => if x.2 > best.2 then x else best)
    ("calm", w.calm)

/-- Output of the confidence/risk scoring stage of `recommend`
(rules_engine.py lines 1280-1294). -/
structure ToneMeta where
  top : String
  top_w : ℚ
  confidence : ℚ
  risk : String
deriving DecidableEq, Repr

/-- The confidence/risk scoring stage of `recommend`: top tone by weight,
confidence `round(min(1.0, 0.6*top_w + 0.4*synergy), 3)`, risk "bold" for an
assertive/angry top with confidence ≥ 0.45, "safe" for calm/encourage/relaxed,
else "neutral". -/
def confidence_risk (cats : List (String × List String)) (ctx : Context)
    (g : String) : ToneMeta :=
  let w := (select_tones ctx).1
  let ti := top_tone_item w
  let syn := score_synergy cats ti.1 g ctx
  let conf := round3 (min 1 (3/5 * ti.2 + 2/5 * syn))
  let risk :=
    if (ti.1 = "assertive" ∨ ti.1 = "angry") ∧ conf ≥ 9/20 then "bold"
    else if ti.1 = "calm" ∨ ti.1 = "encourage" ∨ ti.1 = "relaxed" then "safe"
    else "neutral"
  ⟨ti.1, ti.2, conf, risk⟩

/-- The spec's confidence formula, for comparison with the code's value.
Modelled from the spec's words (§4.5): "confidence = clamp(0.6×weight-of-top-
tone + 0.4×gesture-tone-synergy-score(top-tone, chosen-gesture), 0, 1)". -/
def spec_confidence (w syn : ℚ) : ℚ := max 0 (min 1 (3/5 * w + 2/5 * syn))

/- ## Favourite detection and matchup tier (rules_engine.py)

Both read engine_config.json; the embedding uses the code's own defaults
(the values taken when the file is absent), under which the two special away
constraints of `detect_fav_status` are disabled
(require_both = False, never_favourite gap = 0). -/

/-- `_score_form` from rules_engine.py: W=+1, D=0, L=-1 over the first five
characters (uppercased), 0 when absent. -/
def score_form (s : Option (List Char)) : Int :=
  match s with
  | Option.none => 0
  | some cs =>
    ((cs.take 5).map (fun c =>
      if c.toUpper = 'W' then (1 : Int) else if c.toUpper = 'L' then -1 else 0)).sum

/-- `_form_points` from `detect_matchup_tier`: W=3, D=1, else 0 over the first
five characters (uppercased), 0 when absent. -/
def form_points (s : Option (List Char)) : Int :=
  match s with
  | Option.none => 0
  | some cs =>
    ((cs.take 5).map (fun c =>
      if c.toUpper = 'W' then (3 : Int) else if c.toUpper = 'D' then 1 else 0)).sum

/-- `detect_fav_status` from rules_engine.py with the default configuration:
position gap threshold 3 (weight 1), form threshold 2 (weight 1), home bonus 1,
away penalty 0, favourite threshold 2; the special away rules are disabled by
default.  (The human-readable per-factor explanation string is elided.) -/
def detect_fav_status (ctx : Context) : FavStatus :=
  let pos_term : Int :=
    match ctx.team_position, ctx.opponent_position with
    | some tp, some op =>
      if op - tp ≥ 3 then 1 else if op - tp ≤ -3 then -1 else 0
    | _, _ => 0
  let form_term : Int :=
    let fd := score_form ctx.team_form - score_form ctx.opponent_form
    if fd ≥ 2 then 1 else if fd ≤ -2 then -1 else 0
  let venue_term : Int := if ctx.venue = Venue.home then 1 else 0
  if pos_term + form_term + venue_term ≥ 2 then FavStatus.favourite else FavStatus.underdog

/-- The continuous advantage score of `detect_matchup_tier` with the default
advantage model: pos 1.0×Δ/4, form 0.8×Δ/5 (W=3/D=1/L=0), venue ±0.6,
xG 0.8×Δ, shots 0.4×Δ/5, possession 0.3×(p−50)/20, clamped to ±5. -/
def advantage_score (ctx : Context) : ℚ :=
  let s : ℚ := 0
  let s :=
    match ctx.team_position, ctx.opponent_position with
    | some tp, some op => s + ((op - tp : Int) : ℚ) / 4
    | _, _ => s
  let s := s + 4/5 * (((form_points ctx.team_form - form_points ctx.opponent_form : Int) : ℚ) / 5)
  let s := if ctx.venue = Venue.home then s + 3/5 else s + (-(3/5))
  let s :=
    match ctx.xg_for, ctx.xg_against with
    | some xf, some xa => s + 4/5 * (xf - xa)
    | _, _ => s
  let s :=
    match ctx.shots_for, ctx.shots_against with
    | some sf, some sa => s + 2/5 * (((sf - sa : Int) : ℚ) / 5)
    | _, _ => s
  let s :=
    match ctx.possession_pct with
    | some p => s + 3/10 * ((p - 50) / 20)
    | Option.none => s
  max (-5) (min 5 s)

/-- The tier mapping of `detect_matchup_tier` with the default thresholds:
strong favourite ≥ 2.5, slight favourite ≥ 0.8, even band (−0.8, 0.8) with
even as the boundary fallback, strong underdog ≤ −2.5, slight underdog ≤ −0.8. -/
def tier_of_score (s : ℚ) : FavTier :=
  if s ≥ 5/2 then FavTier.strongFavourite
  else if s ≥ 4/5 then FavTier.slightFavourite
  else if -(4/5) < s ∧ s < 4/5 then FavTier.even
  else if s ≤ -(5/2) then FavTier.strongUnderdog
  else if s ≤ -(4/5) then FavTier.slightUnderdog
  else FavTier.even

/-- `detect_matchup_tier` from rules_engine.py: (tier, edge score); the
explanation string is elided. -/
def detect_matchup_tier (ctx : Context) : FavTier × ℚ :=
  (tier_of_score (advantage_score ctx), advantage_score ctx)

/- ## Base rule matcher (`pick_base_rule`, rules_engine.py lines 946-1015) -/

/-- The specificity score of one rule against a context, `Option.none` when the
rule is eliminated: stage must match (+1); a nonempty tier set requires the
current tier to be a member (+1); favourite status adds a point on match and
eliminates on mismatch except in auto mode, where a mismatch is tolerated;
venue and score state eliminate on mismatch (+1 on match; a rule score-state
condition also eliminates a context with no score state); a nonempty special
set requires any overlap (+1). -/
def rule_score (ctx : Context) (w : RuleCondition) : Option Int :=
  if w.stage ≠ ctx.stage then Option.none
  else
    let tier_part : Option Int :=
      match w.tier with
      | some ts =>
        if ts = [] then some 0
        else if (detect_matchup_tier ctx).1 ∈ ts then some 1 else Option.none
      | Option.none => some 0
    match tier_part with
    | Option.none => Option.none
    | some tp =>
      let fav_part : Option Int :=
        match w.favStatus with
        | some f =>
          if ctx.auto_fav_status then some (if f = ctx.fav_status then 1 else 0)
          else if f = ctx.fav_status then some 1 else Option.none
        | Option.none => some 0
      match fav_part with
      | Option.none => Option.none
      | some fp =>
        let venue_part : Option Int :=
          match w.venue with
          | some v => if v = ctx.venue then some 1 else Option.none
          | Option.none => some 0
        match venue_part with
        | Option.none => Option.none
        | some vp =>
          let score_part : Option Int :=
            match w.scoreState with
            | some sc =>
              match ctx.score_state with
              | some cs => if sc = cs then some 1 else Option.none
              | Option.none => Option.none
            | Option.none => some 0
          match score_part with
          | Option.none => Option.none
          | some sp =>
            let special_part : Option Int :=
              match w.special with
              | some specs =>
                if specs = [] then some 0
                else if specs.any (fun x => decide (x ∈ ctx.special_situations)) then some 1
                else Option.none
              | Option.none => some 0
            match special_part with
            | Option.none => Option.none
            | some xp => some (1 + tp + fp + vp + sp + xp)

/-- The surviving candidates of `pick_base_rule`, in rule-list order, each with
its specificity score. -/
def candidates (ctx : Context) (rules : List PlaybookRule) : List (Int × PlaybookRule) :=
  rules.filterMap (fun r => (rule_score ctx r.when).map (fun s => (s, r)))

/-- Python's stable descending sort followed by taking the head: the first
candidate of maximal score. -/
def pick_top : List (Int × PlaybookRule) → Option (Int × PlaybookRule)
  | [] => Option.none
  | c :: cs =>
    match pick_top cs with
    | Option.none => some c
    | some b => if b.1 > c.1 then some b else some c

/-- The base `Recommendation` built from the winning rule (the formatted
"Base rule matched" trace line is elided to fixed text). -/
def base_from_rule (r : PlaybookRule) : Recommendation :=
  { mentality := r.recommendation.mentality
    team_talk := r.recommendation.teamTalk
    gesture := r.recommendation.gesture
    shout := r.recommendation.shout
    talk_audience := r.recommendation.audience
    notes := r.recommendation.notes
    trace := ["Base rule matched"] }

/-- `pick_base_rule` from rules_engine.py: most specific matching rule, first
on ties, `Option.none` when no candidate survives. -/
def pick_base_rule (ctx : Context) (rules : List PlaybookRule) : Option Recommendation :=
  (pick_top (candidates ctx rules)).map (fun c => base_from_rule c.2)

/- ## External data parameters (rule packs and the statement/gesture catalog)

The JSON rule packs and catalogs are external read-only collaborators
(spec §6); `recommend` is parameterized by them. -/

/-- The statement bank (statements.json): PreMatch maps gesture → statement
list; HalfTime/FullTime map score-state → gesture → statement list. -/
structure StatementsData where
  preMatch : List (String × List String) := []
  halfTime : List (ScoreState × List (String × List String)) := []
  fullTime : List (ScoreState × List (String × List String)) := []
deriving DecidableEq, Repr

/-- The external configuration consumed by `recommend`: base rules, special
overrides, reaction rules, the tone → gestures catalog and the statement bank. -/
structure Config where
  base_rules : List PlaybookRule := []
  special_rules : List SpecialRule := []
  reaction_rules : List ReactionRule := []
  catalogs : List (String × List String) := []
  statements : StatementsData := {}
deriving DecidableEq, Repr

/-- `_get_gesture_statements` from rules_engine.py: PreMatch looks the gesture
up directly; HalfTime/FullTime first resolve the score key (defaulting to
Drawing when the score state is absent).  For in-play stages the code falls
back to the "PreMatch" node whose keys are gestures, so the score-key lookup
finds nothing and the result is empty. -/
def get_gesture_statements (cfg : Config) (stage : MatchStage)
    (ss : Option ScoreState) (g : String) : List String :=
  if stage = MatchStage.preMatch then (lookup_assoc cfg.statements.preMatch g).getD []
  else if stage = MatchStage.halfTime ∨ stage = MatchStage.fullTime then
    let node := if stage = MatchStage.halfTime then cfg.statements.halfTime else cfg.statements.fullTime
    let key : ScoreState :=
      match ss with
      | some ScoreState.winning => ScoreState.winning
      | some ScoreState.losing => ScoreState.losing
      | _ => ScoreState.drawing
    match lookup_assoc node key with
    | some by_gesture => (lookup_assoc by_gesture g).getD []
    | Option.none => []
  else []

/-- `_get_tone_statements` from rules_engine.py: all statements of every
catalog gesture carrying the tone, concatenated in catalog order. -/
def get_tone_statements (cfg : Config) (stage : MatchStage)
    (ss : Option ScoreState) (tone : String) : List String :=
  let gs := (lookup_assoc cfg.catalogs tone).getD []
  gs.foldl (fun acc g => acc ++ get_gesture_statements cfg stage ss g) []

/-- `_get_stats_overlay_phrase` from rules_engine.py: first tone statement at
(HalfTime, Drawing), falling back to the calm tone. -/
def get_stats_overlay_phrase (cfg : Config) (tone : String) : Option String :=
  match (get_tone_statements cfg MatchStage.halfTime (some ScoreState.drawing) tone).head? with
  | some s => some s
  | Option.none =>
    (get_tone_statements cfg MatchStage.halfTime (some ScoreState.drawing) "calm").head?

/-- `context.ht_score_delta is not None and context.ht_score_delta <= -2`. -/
def ht_delta_le_minus2 (ctx : Context) : Bool :=
  match ctx.ht_score_delta with
  | some d => d ≤ -2
  | Option.none => false

/-- `_select_talk_phrase` from rules_engine.py (lines 220-306).  `Except.error`
models the uncaught Python `UnboundLocalError`: the tone-fallback tail of the
function (lines 270-273) returns the local `items` — assigned only in the
unreachable legacy block below it — on every path on which no earlier
heuristic returned, directly under the comment "Default to first statement". -/
def select_talk_phrase (cfg : Config) (ctx : Context) (tone : String)
    (gesture : Option String) : Except String (Option String) :=
  let stage := ctx.stage
  let ss := ctx.score_state
  let primary : Option String :=
    match gesture with
    | some g =>
      if g ≠ "" then
        let sts := get_gesture_statements cfg stage ss g
        if sts ≠ [] then
          if stage = MatchStage.halfTime ∧ ss = some ScoreState.losing ∧
             g = "Outstretched Arms" ∧ ctx.venue = Venue.away ∧ sts.length ≥ 2 then
            some (if ctx.fav_status = FavStatus.favourite then sts.getD 0 "" else sts.getD 1 "")
          else some (sts.getD 0 "")
        else Option.none
      else Option.none
    | Option.none => Option.none
  match primary with
  | some p => .ok (some p)
  | Option.none =>
    let sts := get_tone_statements cfg stage ss tone
    if sts = [] then .ok Option.none
    else if stage = MatchStage.preMatch ∧ tone = "assertive" ∧
            ctx.fav_status = FavStatus.favourite ∧ ctx.venue = Venue.home ∧
            sts.length ≥ 2 then
      .ok (some (sts.getD 1 ""))
    else if stage = MatchStage.preMatch ∧ tone = "assertive" ∧
            ctx.fav_status = FavStatus.favourite ∧ ctx.venue = Venue.away ∧
            sts.length ≥ 3 then
      .ok (some (sts.getD 2 ""))
    else if ss = some ScoreState.winning ∧ ctx.fav_status = FavStatus.favourite ∧
            tone = "assertive" then
      .ok (some (sts.getD 0 ""))
    else if ss = some ScoreState.losing ∧ ctx.venue = Venue.away ∧
            (tone = "calm" ∨ tone = "motivational") then
      (if tone = "calm" ∧ sts.length ≥ 2 then .ok (some (sts.getD 1 ""))
       else .ok (some (sts.getD 0 "")))
    else if stage = MatchStage.halfTime ∧ ss = some ScoreState.losing ∧
            tone = "assertive" then
      (if ctx.fav_status = FavStatus.favourite ∨ ht_delta_le_minus2 ctx then
        .ok (some (sts.getD 0 ""))
      else .error "UnboundLocalError: items")
    else .error "UnboundLocalError: items"

/-- Python falsiness of `s and s.strip()`: true iff the string is empty or
all whitespace. -/
def is_blank (s : String) : Bool :=
  s.toList.all (fun c => c = ' ' ∨ c = '\t' ∨ c = '\n' ∨ c = '\r')

/-- Whether the second list is an initial segment of the first. -/
def leading_match : List Char → List Char → Bool
  | _, [] => true
  | [], _ :: _ => false
  | a :: as, b :: bs => a = b && leading_match as bs

/-- Python `sub in s` on strings, over their character lists. -/
def has_substring (s sub : List Char) : Bool :=
  match s with
  | [] => sub.isEmpty
  | _ :: rest => leading_match s sub || has_substring rest sub

/-- `harmonize_talk_with_gesture` from rules_engine.py: at talk stages with an
empty (or whitespace) team talk, pick a phrase matching the gesture's tone;
an exception raised by `_select_talk_phrase` propagates (the call is not
guarded). -/
def harmonize_talk_with_gesture (cfg : Config) (ctx : Context)
    (r : Recommendation) : Except String Recommendation :=
  if ¬ is_talk_stage ctx.stage then .ok r
  else if ¬ is_blank r.team_talk then .ok r
  else
    match select_talk_phrase cfg ctx (gesture_tone cfg.catalogs r.gesture) (some r.gesture) with
    | .error e => .error e
    | .ok (some phrase) =>
      .ok { r with team_talk := phrase,
                   trace := r.trace ++ ["Phrase harmonized to gesture tone"] }
    | .ok Option.none => .ok r

/-- `_is_praise_context` from rules_engine.py. -/
def is_praise_context (ctx : Context) : Bool :=
  if ctx.score_state = some ScoreState.winning then true
  else if ctx.stage = MatchStage.fullTime ∧ ctx.venue = Venue.away ∧
          ctx.fav_status = FavStatus.underdog ∧
          (ctx.score_state = some ScoreState.drawing ∨ ctx.score_state = some ScoreState.winning) then
    true
  else if SpecialSituation.promotion ∈ ctx.special_situations ∧
          ctx.stage = MatchStage.fullTime then
    true
  else false

/-- The talk-stage gesture decision matrix of `adjust_gesture_for_context`
(before the Outstretched-Arms guard), from the incoming gesture `g`. -/
def gesture_matrix (ctx : Context) (g : String) : String :=
  if ctx.stage = MatchStage.preMatch then
    (if ctx.fav_status = FavStatus.favourite then "Point Finger" else "Outstretched Arms")
  else if ctx.stage = MatchStage.halfTime then
    match ctx.score_state with
    | some ScoreState.losing =>
      if ctx.fav_status = FavStatus.favourite then
        (if ht_delta_le_minus2 ctx then "Thrash Arms" else "Point Finger")
      else "Hands Together"
    | some ScoreState.drawing =>
      if ctx.fav_status = FavStatus.favourite then "Point Finger" else "Hands Together"
    | some ScoreState.winning =>
      if PlayerReaction.complacent ∈ ctx.player_reactions then "Point Finger"
      else "Hands Together"
    | Option.none => g
  else -- FullTime
    match ctx.score_state with
    | some ScoreState.winning => "Hands Together"
    | some ScoreState.drawing =>
      if ctx.fav_status = FavStatus.favourite then "Hands on Hips" else "Outstretched Arms"
    | some ScoreState.losing =>
      if ctx.fav_status = FavStatus.favourite then "Thrash Arms" else "Hands Together"
    | Option.none => g

/-- The matrix gesture after the Outstretched-Arms guard outside praise
contexts. -/
def talk_gesture (ctx : Context) (g : String) : String :=
  if gesture_matrix ctx g = "Outstretched Arms" ∧ ¬ is_praise_context ctx then
    "Hands Together"
  else gesture_matrix ctx g

/-- `adjust_gesture_for_context` from rules_engine.py: the talk-stage gesture
decision matrix, with the Outstretched-Arms guard outside praise contexts. -/
def adjust_gesture_for_context (ctx : Context) (r : Recommendation) : Recommendation :=
  if ¬ is_talk_stage ctx.stage then r
  else if talk_gesture ctx r.gesture ≠ r.gesture then
    { r with gesture := talk_gesture ctx r.gesture,
             trace := r.trace ++ ["Gesture adjusted for context"] }
  else r

/-- `enforce_prematch_mentality_cap` from rules_engine.py: never start above
Positive. -/
def enforce_prematch_mentality_cap (ctx : Context) (r : Recommendation) : Recommendation :=
  if ctx.stage ≠ MatchStage.preMatch then r
  else if r.mentality = Mentality.attacking ∨ r.mentality = Mentality.veryAttacking then
    { r with mentality := Mentality.positive,
             notes := r.notes ++ ["Pre-match cap: start no higher than Positive."],
             trace := r.trace ++ ["Pre-match mentality capped to Positive"] }
  else r

/-- `choose_inplay_shout` from rules_engine.py: the in-play shout table, with
the tier-informed Focus nuance for a strong favourite drawing very late. -/
def choose_inplay_shout (ctx : Context) (r : Recommendation) : Recommendation :=
  if is_talk_stage ctx.stage then r
  else if r.shout ≠ Shout.none then r
  else
    match ctx.score_state with
    | some ScoreState.winning =>
      if ctx.fav_status = FavStatus.underdog then
        { r with shout := Shout.praise,
                 notes := r.notes ++ ["Underdog winning: Praise to reinforce confidence."],
                 trace := r.trace ++ ["In-play shout set: Praise (underdog winning)"] }
      else if ctx.stage = MatchStage.late ∨ ctx.stage = MatchStage.veryLate then
        { r with shout := Shout.focus,
                 notes := r.notes ++ ["Protect the lead late: Focus."],
                 trace := r.trace ++ ["In-play shout set: Focus (protect late lead)"] }
      else r
    | some ScoreState.drawing =>
      if ctx.fav_status = FavStatus.favourite then
        if ctx.stage = MatchStage.veryLate ∧
           (detect_matchup_tier ctx).1 = FavTier.strongFavourite then
          { r with shout := Shout.focus,
                   notes := r.notes ++
                     ["Strong favourite drawing very late: Focus to stay composed for the moment."],
                   trace := r.trace ++
                     ["Tier-aware in-play shout: Focus (strong favourite drawing very late)"] }
        else
          { r with shout := Shout.demandMore,
                   notes := r.notes ++ ["Favourite drawing: Demand More to push on."],
                   trace := r.trace ++ ["In-play shout set: Demand More (favourite drawing)"] }
      else
        { r with shout := Shout.encourage,
                 notes := r.notes ++ ["Underdog drawing: Encourage to keep belief."],
                 trace := r.trace ++ ["In-play shout set: Encourage (underdog drawing)"] }
    | some ScoreState.losing =>
      if ctx.fav_status = FavStatus.favourite then
        if ctx.stage = MatchStage.early ∨ ctx.stage = MatchStage.mid then
          { r with shout := Shout.fireUp,
                   notes := r.notes ++ ["Favourite losing early: Fire Up for reaction."],
                   trace := r.trace ++ ["In-play shout set: Fire Up (favourite losing early)"] }
        else
          { r with shout := Shout.demandMore,
                   notes := r.notes ++ ["Favourite losing late: Demand More to chase."],
                   trace := r.trace ++ ["In-play shout set: Demand More (favourite losing late)"] }
      else
        { r with shout := Shout.encourage,
                 notes := r.notes ++ ["Underdog losing: Encourage to avoid collapse."],
                 trace := r.trace ++ ["In-play shout set: Encourage (underdog losing)"] }
    | Option.none => r

/-- `_goal_diff` from rules_engine.py. -/
def goal_diff (ctx : Context) : Option Int :=
  match ctx.team_goals, ctx.opponent_goals with
  | some t, some o => some (t - o)
  | _, _ => Option.none

/-- The late-game mentality delta of `apply_time_score_heuristics`. -/
def time_score_delta (ctx : Context) : Int :=
  let gd := goal_diff ctx
  match ctx.score_state with
  | some ScoreState.losing =>
    if ctx.fav_status = FavStatus.favourite then 1
    else if gd = some (-1) then 1 else 0
  | some ScoreState.drawing =>
    if ctx.fav_status = FavStatus.favourite then 1 else 0
  | some ScoreState.winning =>
    if gd = some 1 then -1 else 0
  | Option.none => 0

/-- `apply_time_score_heuristics` from rules_engine.py: ±1 mentality for
late-game scenarios. -/
def apply_time_score_heuristics (ctx : Context) (r : Recommendation) : Recommendation :=
  if ¬ (ctx.stage = MatchStage.late ∨ ctx.stage = MatchStage.veryLate) then r
  else if time_score_delta ctx = 0 then r
  else
    { r with
      mentality := clamp_mentality (mentality_to_value r.mentality + time_score_delta ctx),
      notes := r.notes ++
        [if time_score_delta ctx > 0 then "Late-game push based on scoreline and status."
         else "Late-game control: tighten up with a narrow lead."],
      trace := r.trace ++
        [if time_score_delta ctx > 0 then "Late-game mentality +1 applied"
         else "Late-game mentality -1 applied (protect 1-goal lead)"] }

/-- The slight-favourite softening step of
`apply_tier_informed_talk_adjustments`. -/
def tier_soften (ctx : Context) (r : Recommendation) : Recommendation :=
  if (detect_matchup_tier ctx).1 = FavTier.slightFavourite ∧ r.gesture = "Point Finger" then
    { r with gesture := "Hands on Hips",
             trace := r.trace ++
               ["Tier-informed: slight favourite at HT drawing, soften to Hands on Hips"] }
  else r

/-- The even/slight-underdog supportive step of
`apply_tier_informed_talk_adjustments`. -/
def tier_push (ctx : Context) (r : Recommendation) : Recommendation :=
  if ((detect_matchup_tier ctx).1 = FavTier.even ∨
      (detect_matchup_tier ctx).1 = FavTier.slightUnderdog) ∧
     (detect_matchup_tier ctx).2 > 1/5 then
    if r.gesture ≠ "Hands Together" then
      { r with gesture := "Hands Together",
               trace := r.trace ++
                 ["Tier-informed: even/slight underdog with positive edge, Hands Together"],
               notes := r.notes ++ ["Even but on top: keep belief and push on."] }
    else { r with notes := r.notes ++ ["Even but on top: keep belief and push on."] }
  else r

/-- `apply_tier_informed_talk_adjustments` from rules_engine.py: half-time
drawing gesture softening by tier and edge. -/
def apply_tier_informed (ctx : Context) (r : Recommendation) : Recommendation :=
  if ¬ is_talk_stage ctx.stage then r
  else if ctx.stage = MatchStage.halfTime ∧ ctx.score_state = some ScoreState.drawing then
    tier_push ctx (tier_soften ctx r)
  else r

/-- `possession_pct is not None and possession_pct < 40`. -/
def possession_below_40 (ctx : Context) : Bool :=
  match ctx.possession_pct with
  | some p => p < 40
  | Option.none => false

/-- Whether the context is drawing or losing (the repeated guard of the
live-stats heuristics). -/
def score_behind (ctx : Context) : Prop :=
  ctx.score_state = some ScoreState.drawing ∨ ctx.score_state = some ScoreState.losing

instance (ctx : Context) : Decidable (score_behind ctx) := by
  unfold score_behind
  infer_instance

/-- The outshooting-but-not-leading step of `apply_live_stats_heuristics`. -/
def live_outshoot (ctx : Context) (r : Recommendation) : Recommendation :=
  if (ctx.shots_for.getD 0 > ctx.shots_against.getD 0 + 3 ∨
      ctx.shots_on_target_for.getD 0 > ctx.shots_on_target_against.getD 0 + 1) ∧
     score_behind ctx then
    if r.shout = Shout.none ∧ ¬ is_talk_stage ctx.stage then
      { r with notes := r.notes ++ ["Creating more - keep belief and maintain intensity."],
               shout := Shout.encourage,
               trace := r.trace ++ ["Live stats: outshooting, Encourage"] }
    else { r with notes := r.notes ++ ["Creating more - keep belief and maintain intensity."] }
  else r

/-- The under-siege-while-leading-late step of `apply_live_stats_heuristics`. -/
def live_siege (ctx : Context) (r : Recommendation) : Recommendation :=
  if ctx.score_state = some ScoreState.winning ∧
     (ctx.shots_against.getD 0 > ctx.shots_for.getD 0 + 4 ∨
      ctx.shots_on_target_against.getD 0 > ctx.shots_on_target_for.getD 0 + 2) ∧
     (ctx.stage = MatchStage.late ∨ ctx.stage = MatchStage.veryLate) then
    if r.shout = Shout.none then
      { r with notes := r.notes ++ ["They are peppering us - tighten up and concentrate."],
               shout := Shout.focus,
               trace := r.trace ++ ["Live stats: under siege late, Focus"] }
    else { r with notes := r.notes ++ ["They are peppering us - tighten up and concentrate."] }
  else r

/-- The low-possession note step of `apply_live_stats_heuristics`. -/
def live_possession (ctx : Context) (r : Recommendation) : Recommendation :=
  if possession_below_40 ctx ∧ ctx.fav_status = FavStatus.favourite ∧ score_behind ctx then
    { r with notes := r.notes ++
               ["Possession low for a favourite - consider calming it down and keeping it simple."],
             trace := r.trace ++ ["Live stats note: low possession as favourite"] }
  else r

/-- The favourable-xG note step of `apply_live_stats_heuristics`. -/
def live_xg (ctx : Context) (r : Recommendation) : Recommendation :=
  if ctx.xg_for.getD 0 - ctx.xg_against.getD 0 > 3/5 ∧ score_behind ctx then
    { r with notes := r.notes ++ ["xG says we are on top - keep pushing, the goal should come."],
             trace := r.trace ++ ["Live stats note: big xG delta in favour"] }
  else r

/-- `apply_live_stats_heuristics` from rules_engine.py: notes plus shout
fallbacks from optional live stats; no change when no stat is present. -/
def apply_live_stats_heuristics (ctx : Context) (r : Recommendation) : Recommendation :=
  if ctx.possession_pct = Option.none ∧ ctx.shots_for = Option.none ∧
     ctx.shots_against = Option.none ∧ ctx.shots_on_target_for = Option.none ∧
     ctx.shots_on_target_against = Option.none ∧ ctx.xg_for = Option.none ∧
     ctx.xg_against = Option.none then r
  else live_xg ctx (live_possession ctx (live_siege ctx (live_outshoot ctx r)))

/-- The position/form/venue mentality delta of
`apply_context_stats_adjustments`. -/
def context_stats_delta (ctx : Context) : Int :=
  let pos_bucket : Int :=
    match ctx.team_position, ctx.opponent_position with
    | some tp, some op =>
      if op - tp ≥ 8 then 1 else if op - tp ≤ -8 then -1 else 0
    | _, _ => 0
  let form_bucket : Int :=
    let fd := score_form ctx.team_form - score_form ctx.opponent_form
    if fd ≥ 2 then 1 else if fd ≤ -2 then -1 else 0
  let home_bucket : Int := if ctx.venue = Venue.home then 1 else 0
  let total := pos_bucket + form_bucket + home_bucket
  if total ≥ 2 then 1 else if total ≤ -2 then -1 else 0

/-- `apply_context_stats_adjustments` from rules_engine.py: ±1 mentality from
position/form/venue buckets, with an in-play shout suggestion when none set. -/
def apply_context_stats_adjustments (ctx : Context) (r : Recommendation) : Recommendation :=
  if context_stats_delta ctx = 0 then
    { r with trace := r.trace ++ ["Context stats check: no mentality change"] }
  else
    { r with
      mentality := clamp_mentality (mentality_to_value r.mentality + context_stats_delta ctx),
      shout :=
        if r.shout = Shout.none ∧ ¬ is_talk_stage ctx.stage then
          (if context_stats_delta ctx > 0 then Shout.demandMore else Shout.encourage)
        else r.shout,
      notes := r.notes ++
        [if context_stats_delta ctx > 0 then
          "Favorable position/form and home advantage suggest a more assertive approach."
        else "Position/form context suggests caution (especially away)."],
      trace := r.trace ++
        [if context_stats_delta ctx > 0 then "Context stats: mentality +1"
         else "Context stats: mentality -1"] }

/-- The override key of `apply_special_overrides` ("basic context synopsis"). -/
def special_key (ctx : Context) : Option String :=
  if ctx.stage = MatchStage.preMatch then
    some (if ctx.fav_status = FavStatus.underdog then "preMatchUnderdog" else "preMatch")
  else if ctx.stage = MatchStage.halfTime then
    match ctx.score_state with
    | some ScoreState.winning => some "halfTimeLead"
    | some ScoreState.losing => some "halfTimeLosing"
    | _ => Option.none
  else if ctx.stage = MatchStage.fullTime then
    match ctx.score_state with
    | some ScoreState.winning => some "fullTimeWin"
    | some ScoreState.drawing => some "fullTimeDraw"
    | some ScoreState.losing => some "fullTimeLoss"
    | Option.none => Option.none
  else Option.none

/-- One special rule applied by `apply_special_overrides`: non-empty override
fields replace the corresponding recommendation fields; a trace entry is
appended when something changed. -/
def apply_one_special (ctx : Context) (r : Recommendation) (s : SpecialRule) : Recommendation :=
  if s.tag ∉ ctx.special_situations then r
  else
    match special_key ctx with
    | Option.none => r
    | some key =>
      match lookup_assoc s.overrides key with
      | Option.none => r
      | some ov =>
        let r1 :=
          match ov.teamTalk with
          | some t => if t ≠ "" then { r with team_talk := t } else r
          | Option.none => r
        let r1 :=
          match ov.gesture with
          | some g => if g ≠ "" then { r1 with gesture := g } else r1
          | Option.none => r1
        let r1 :=
          match ov.shout with
          | some sh => { r1 with shout := sh }
          | Option.none => r1
        let r1 :=
          match ov.mentality with
          | some m => { r1 with mentality := m }
          | Option.none => r1
        if r1.team_talk ≠ r.team_talk ∨ r1.gesture ≠ r.gesture ∨ r1.shout ≠ r.shout ∨
           r1.mentality ≠ r.mentality then
          { r1 with trace := r1.trace ++ ["Special override applied"] }
        else r1

/-- `apply_special_overrides` from rules_engine.py. -/
def apply_special_overrides (ctx : Context) (r : Recommendation)
    (specials : List SpecialRule) : Recommendation :=
  specials.foldl (apply_one_special ctx) r

/-- The order-preserving note dedupe at the end of
`apply_reaction_adjustments`. -/
def dedupe (l : List String) : List String :=
  l.foldl (fun acc n => if n ∈ acc then acc else acc ++ [n]) []

/-- One reaction rule applied by `apply_reaction_adjustments`: overwrites for
non-empty fields, merged notes, summed mentality delta. -/
def apply_reaction_step (ctx : Context) (acc : Recommendation × Int)
    (rr : ReactionRule) : Recommendation × Int :=
  if rr.reaction ∈ ctx.player_reactions then
    ({ acc.1 with
       team_talk :=
         match rr.adjustment.teamTalk with
         | some t => if t ≠ "" then t else acc.1.team_talk
         | Option.none => acc.1.team_talk,
       gesture :=
         match rr.adjustment.gesture with
         | some g => if g ≠ "" then g else acc.1.gesture
         | Option.none => acc.1.gesture,
       shout :=
         match rr.adjustment.shout with
         | some sh => sh
         | Option.none => acc.1.shout,
       notes :=
         if rr.adjustment.notes ≠ [] then acc.1.notes ++ rr.adjustment.notes else acc.1.notes,
       trace := acc.1.trace ++ ["Reaction applied"] },
     acc.2 + rr.adjustment.mentalityDelta)
  else acc

/-- The reaction fold of `apply_reaction_adjustments`: every rule applied in
order, the mentality value accumulated from the recommendation's. -/
def reaction_folded (ctx : Context) (r : Recommendation)
    (rules : List ReactionRule) : Recommendation × Int :=
  rules.foldl (apply_reaction_step ctx) (r, mentality_to_value r.mentality)

/-- `apply_reaction_adjustments` from rules_engine.py: all reaction
adjustments, clamped summed mentality, deduplicated notes, with a trace entry
when the mentality moved. -/
def apply_reaction_adjustments (ctx : Context) (r : Recommendation)
    (rules : List ReactionRule) : Recommendation :=
  if mentality_to_value (clamp_mentality (reaction_folded ctx r rules).2) ≠
     mentality_to_value r.mentality then
    { (reaction_folded ctx r rules).1 with
      mentality := clamp_mentality (reaction_folded ctx r rules).2,
      trace := (reaction_folded ctx r rules).1.trace ++ ["Reactions total mentality change"],
      notes := dedupe (reaction_folded ctx r rules).1.notes }
  else
    { (reaction_folded ctx r rules).1 with
      mentality := clamp_mentality (reaction_folded ctx r rules).2,
      notes := dedupe (reaction_folded ctx r rules).1.notes }

/-- The overlay key of `adapt_talk_phrase_with_stats`, by priority: push_on,
see_it_out, take_control. -/
def overlay_key_of (ctx : Context) : Option String :=
  if score_behind ctx ∧
     (ctx.shots_for.getD 0 > ctx.shots_against.getD 0 + 3 ∨
      ctx.shots_on_target_for.getD 0 > ctx.shots_on_target_against.getD 0 + 1 ∨
      ctx.xg_for.getD 0 - ctx.xg_against.getD 0 > 3/5) then
    some "push_on"
  else if ctx.score_state = some ScoreState.winning ∧
          (ctx.stage = MatchStage.late ∨ ctx.stage = MatchStage.veryLate) ∧
          (ctx.shots_against.getD 0 > ctx.shots_for.getD 0 + 4 ∨
           ctx.shots_on_target_against.getD 0 > ctx.shots_on_target_for.getD 0 + 2) then
    some "see_it_out"
  else if possession_below_40 ctx ∧ ctx.fav_status = FavStatus.favourite ∧
          score_behind ctx then
    some "take_control"
  else Option.none

/-- The tone used by the overlay phrase: calm for a push-on overlay when
evenly matched or a slight underdog with positive edge, otherwise the
gesture's tone. -/
def overlay_tone (cfg : Config) (ctx : Context) (key : String) (r : Recommendation) : String :=
  if key = "push_on" ∧
     ((detect_matchup_tier ctx).1 = FavTier.even ∨
      (detect_matchup_tier ctx).1 = FavTier.slightUnderdog) ∧
     (detect_matchup_tier ctx).2 > 1/5 then "calm"
  else gesture_tone cfg.catalogs r.gesture

/-- `adapt_talk_phrase_with_stats` from rules_engine.py: tone-aware overlay
rewrite of the team talk at talk stages when live stats are present. -/
def adapt_talk_phrase_with_stats (cfg : Config) (ctx : Context)
    (r : Recommendation) : Recommendation :=
  if ¬ is_talk_stage ctx.stage then r
  else if ctx.stage = MatchStage.fullTime ∧
          SpecialSituation.promotion ∈ ctx.special_situations then r
  else if ctx.possession_pct = Option.none ∧ ctx.shots_for = Option.none ∧
          ctx.shots_against = Option.none ∧ ctx.shots_on_target_for = Option.none ∧
          ctx.shots_on_target_against = Option.none ∧ ctx.xg_for = Option.none ∧
          ctx.xg_against = Option.none then r
  else
    match overlay_key_of ctx with
    | Option.none => r
    | some key =>
      match get_stats_overlay_phrase cfg (overlay_tone cfg ctx key r) with
      | Option.none => r
      | some phrase =>
        if overlay_tone cfg ctx key r ≠ gesture_tone cfg.catalogs r.gesture ∧
           key = "push_on" then
          { r with team_talk := phrase,
                   trace := r.trace ++ ["Stats overlay applied",
                                        "Tier-informed: calm push-on phrasing"] }
        else
          { r with team_talk := phrase, trace := r.trace ++ ["Stats overlay applied"] }

/- ## Segmentation and nudges (src/domain/segmentation.py, src/domain/nudges.py) -/

/-- Python `a or b` over optional floats: `a` unless it is None or 0. -/
def py_or_q (a b : Option ℚ) : Option ℚ :=
  match a with
  | some x => if x = 0 then b else some x
  | Option.none => b

/-- `analyze_units` from segmentation.py: unit-level notes from average
rating divergence. -/
def analyze_units (ctx : Context) : List (String × String) :=
  let look (k : String) : Option ℚ :=
    match ctx.unit_ratings with
    | some l => lookup_assoc l k
    | Option.none => Option.none
  let d := py_or_q (look "Defence") (look "DEF")
  let m := py_or_q (look "Midfield") (look "MID")
  let a := py_or_q (look "Attack") (look "ATT")
  let tag_for (v : Option ℚ) : Option String :=
    match v with
    | Option.none => Option.none
    | some x =>
      if x ≥ 36/5 then some "praise"
      else if x < 13/2 then some "encourage"
      else Option.none
  let notes : List (String × String) :=
    if (match d, a with
        | some dv, some av => decide (dv < 13/2 ∧ av > 7)
        | _, _ => false) then
      [("Defence", "sympathise (stay solid, reset focus)"), ("Attack", "praise (keep being brave)")]
    else []
  let add (ns : List (String × String)) (unit : String) (v : Option ℚ) : List (String × String) :=
    match tag_for v with
    | some t => if ns.all (fun p => p.1 ≠ unit) then ns ++ [(unit, t)] else ns
    | Option.none => ns
  add (add (add notes "Defence" d) "Midfield" m) "Attack" a

/-- `_get_individual_statement` from nudges.py under the default (absent)
statements.json: the deterministic fallback constants. -/
def individual_statement (category : String) : String :=
  if category = "Faith" then "I've got faith in you."
  else if category = "Challenge" then "I expect more."
  else if category = "Encourage" then "You can do it."
  else "[" ++ category ++ " statement needed]"

/-- `generate_nudges` from nudges.py: micro-targeting hints from reactions,
discipline, injuries, momentum, morale and the striker pattern. -/
def generate_nudges (ctx : Context) : List String :=
  let hints : List String := []
  let hints :=
    if PlayerReaction.nervous ∈ ctx.player_reactions then
      hints ++
        ["One looks nervous - speak to them individually with faith: Outstretched Arms - '" ++
           individual_statement "Faith" ++ "'",
         "Consider Hands Together to reduce pressure on that player."]
    else hints
  let hints :=
    if PlayerReaction.complacent ∈ ctx.player_reactions then
      hints ++ ["If someone is complacent, go assertive to reset standards (Point Finger: '" ++
                  individual_statement "Challenge" ++ "')."]
    else hints
  let hints :=
    if PlayerReaction.lackingBelief ∈ ctx.player_reactions then
      hints ++ ["Low belief detected - supportive message to individuals can help ('" ++
                  individual_statement "Encourage" ++ "')."]
    else hints
  let hints :=
    if ctx.cards_yellow ≥ 3 then hints ++ ["Warn booked defenders about tackles."] else hints
  let hints :=
    if ctx.cards_red > 0 then
      hints ++ ["Reinforce shape after the red card; encourage composure."]
    else hints
  let hints :=
    if ctx.injuries ≥ 1 then
      hints ++ ["Check stamina on key runners; plan early sub if fading."]
    else hints
  let hints :=
    match ctx.xthreat_delta with
    | some x =>
      if x ≥ 1/4 then hints ++ ["Praise high performers; keep pressing triggers."]
      else if x ≤ -(1/4) then hints ++ ["Encourage low-confidence attackers; simplify instructions."]
      else hints
    | Option.none => hints
  let hints :=
    match ctx.morale_trend with
    | some mt =>
      if mt ≤ -1 then hints ++ ["Use supportive tone with youngsters and fringe players."] else hints
    | Option.none => hints
  let hints :=
    if (ctx.stage = MatchStage.preMatch ∨ ctx.stage = MatchStage.halfTime) ∧
       (ctx.score_state = some ScoreState.drawing ∨ ctx.score_state = some ScoreState.losing ∨
        ctx.score_state = Option.none) then
      hints ++ ["Individual ST (composed): Pump Fists - '" ++ individual_statement "Encourage" ++ "'"]
    else hints
  hints

/- ## The remaining inline stages of `recommend` (rules_engine.py) -/

/-- Lines 1251-1252 of `recommend`: no shouts at the three talk stages. -/
def talk_stage_force_shout (ctx : Context) (r : Recommendation) : Recommendation :=
  if is_talk_stage ctx.stage then { r with shout := Shout.none } else r

/-- Lines 1254-1259: the auto-detection note appended when auto mode ran
(the per-factor explanation string is elided to the resulting label). -/
def auto_fav_note (ctx : Context) (r : Recommendation) : Recommendation :=
  if ctx.auto_fav_status then
    let label := if detect_fav_status ctx = FavStatus.favourite then "Favourite" else "Underdog"
    { r with notes := r.notes ++ ["Auto status: " ++ label],
             trace := r.trace ++ ["Auto favourite detection: " ++ label] }
  else r

/-- Lines 1276-1278: the user-preferred talk audience override at talk stages. -/
def audience_override (ctx : Context) (r : Recommendation) : Recommendation :=
  if is_talk_stage ctx.stage ∧ ctx.preferred_talk_audience ≠ Option.none then
    { r with talk_audience := ctx.preferred_talk_audience }
  else r

/-- The safer alternative entries of the tone-metadata stage: disallow-filtered
safer candidate tones with their catalog gestures, Outstretched Arms stripped
outside praise contexts. -/
def safer_alternatives (cfg : Config) (ctx : Context) : List (String × List String) :=
  let dis := (select_tones ctx).2
  let safer_candidates : List String :=
    if ctx.stage = MatchStage.halfTime ∧ ctx.score_state = some ScoreState.losing ∧
       ctx.fav_status = FavStatus.favourite then ["calm"]
    else ["calm", "encourage"]
  let safer := (safer_candidates.filter (fun t => decide (t ∉ dis))).map
    (fun t => (t, suggest_gestures cfg.catalogs t))
  if ¬ is_praise_context ctx then
    safer.map (fun p => (p.1, p.2.filter (fun g => decide (g ≠ "Outstretched Arms"))))
  else safer

/-- The bolder alternative entries of the tone-metadata stage. -/
def bolder_alternatives (cfg : Config) (ctx : Context) : List (String × List String) :=
  let dis := (select_tones ctx).2
  let bolder := (["assertive", "angry"].filter (fun t => decide (t ∉ dis))).map
    (fun t => (t, suggest_gestures cfg.catalogs t))
  if ¬ is_praise_context ctx then
    bolder.map (fun p => (p.1, p.2.filter (fun g => decide (g ≠ "Outstretched Arms"))))
  else bolder

/-- The alternatives appended by the tone-metadata stage, safer before bolder,
each only when nonempty. -/
def tone_alternatives (cfg : Config) (ctx : Context) : List Alt :=
  (if safer_alternatives cfg ctx ≠ [] then [Alt.safer (safer_alternatives cfg ctx)] else []) ++
  (if bolder_alternatives cfg ctx ≠ [] then [Alt.bolder (bolder_alternatives cfg ctx)] else [])

/-- The notes appended by the tone-metadata stage: the tone-mix preview (the
formatted weight listing is elided to fixed text), the disallow note, and the
away-favourite clarification (whose "encourage" ∈ disallow guard never fires). -/
def tone_extra_notes (ctx : Context) : List String :=
  ["Tone mix: (weights)"] ++
  (if (select_tones ctx).2 ≠ [] then
    ["Disallow: " ++ String.intercalate ", " (select_tones ctx).2]
  else []) ++
  (if ctx.stage = MatchStage.halfTime ∧ ctx.venue = Venue.away ∧
      ctx.fav_status = FavStatus.favourite ∧ ht_delta_negative ctx ∧
      "encourage" ∈ (select_tones ctx).2 then
    ["Away favourite trailing at HT: avoid praise/encourage - go calm/supportive or firm."]
  else [])

/-- Lines 1280-1330 of `recommend`: tone-matrix metadata.  Confidence and risk
from `confidence_risk`; safer/bolder alternatives from the disallow-filtered
tone list with Outstretched Arms stripped outside praise contexts; tone-mix
and disallow notes. -/
def tone_metadata_stage (cfg : Config) (ctx : Context) (r : Recommendation) : Recommendation :=
  { r with confidence := (confidence_risk cfg.catalogs ctx r.gesture).confidence,
           risk := (confidence_risk cfg.catalogs ctx r.gesture).risk,
           alternatives := r.alternatives ++ tone_alternatives cfg ctx,
           notes := r.notes ++ tone_extra_notes ctx }

/-- Lines 1331-1336: unit segmentation notes and micro-nudges. -/
def unit_nudges_stage (ctx : Context) (r : Recommendation) : Recommendation :=
  { r with unit_notes := analyze_units ctx, nudges := generate_nudges ctx }

/-- Lines 1337-1344: reaction-aware extra notes for assertive half-time-losing
scenarios. -/
def reaction_aware_notes (ctx : Context) (r : Recommendation) : Recommendation :=
  if (ctx.stage = MatchStage.halfTime ∧ ctx.score_state = some ScoreState.losing ∧
      (r.gesture = "Point Finger" ∨ r.gesture = "Hands on Hips")) ∨
     has_substring r.team_talk.toList "Show me something else in the second half.".toList then
    { r with notes := r.notes ++
        (if PlayerReaction.nervous ∈ ctx.player_reactions then
          ["Nervous player: consider a quick individual faith talk (OA: 'I've got faith in you.') to settle them."]
        else []) ++
        ["For your composed striker: Pump Fists - 'You can make the difference.'"] }
  else r

/-- Lines 1345-1347: default talk audience Team at talk stages when unset. -/
def default_audience (ctx : Context) (r : Recommendation) : Recommendation :=
  if is_talk_stage ctx.stage ∧ r.talk_audience = Option.none then
    { r with talk_audience := some TalkAudience.team }
  else r

/- ## `recommend` (rules_engine.py lines 1212-1363)

The first two steps of `recommend` mutate the caller's Context in place:
lines 1215-1221 overwrite `context.score_state` from the numeric goals, and
line 1227 overwrites `context.fav_status` in auto mode.  `effective_context`
is the context value as it stands after those writes; `recommend_run` returns
it alongside the result to model the in-place mutation.  The optional ML
stages (feature logging and guardrailed inference) are disabled under the
default configuration (`log_features` and `inference_enabled` default to
false) and are the identity here. -/

/-- Lines 1215-1221 of `recommend`: the score state derived from numeric
goals, overwriting any caller-supplied value. -/
def derive_score_state (ctx : Context) : Context :=
  match ctx.team_goals, ctx.opponent_goals with
  | some t, some o =>
    let st := if t > o then ScoreState.winning
              else if t < o then ScoreState.losing
              else ScoreState.drawing
    { ctx with score_state := some st }
  | _, _ => ctx

/-- Lines 1223-1227 of `recommend`: auto-detected favourite status written
back into the context. -/
def auto_fav (ctx : Context) : Context :=
  if ctx.auto_fav_status then { ctx with fav_status := detect_fav_status ctx } else ctx

/-- The caller's Context as it stands after `recommend`'s in-place writes. -/
def effective_context (ctx : Context) : Context :=
  auto_fav (derive_score_state ctx)

/-- The stages of `recommend` between the base-rule match and the
statement-harmonization call. -/
def pre_harmonize (ctx : Context) (cfg : Config) (base : Recommendation) : Recommendation :=
  let r := { base with trace := base.trace ++ ["Tier detected", "Tier explain"] }
  let r := apply_special_overrides ctx r cfg.special_rules
  let r := talk_stage_force_shout ctx r
  let r := apply_context_stats_adjustments ctx r
  let r := auto_fav_note ctx r
  let r := choose_inplay_shout ctx r
  let r := apply_time_score_heuristics ctx r
  let r := apply_live_stats_heuristics ctx r
  let r := apply_reaction_adjustments ctx r cfg.reaction_rules
  let r := adjust_gesture_for_context ctx r
  apply_tier_informed ctx r

/-- The stages of `recommend` after statement harmonization. -/
def post_harmonize (ctx : Context) (cfg : Config) (r : Recommendation) : Recommendation :=
  let r := adapt_talk_phrase_with_stats cfg ctx r
  let r := enforce_prematch_mentality_cap ctx r
  let r := audience_override ctx r
  let r := tone_metadata_stage cfg ctx r
  let r := unit_nudges_stage ctx r
  let r := reaction_aware_notes ctx r
  default_audience ctx r

/-- The pipeline of `recommend` on an already-mutated context: base-rule
match (absent result, not an error, when nothing matches), the ordered
adjustment stages, and propagation of the harmonization stage's uncaught
exception. -/
def recommend_core (cfg : Config) (ctx : Context) : Except String (Option Recommendation) :=
  match pick_base_rule ctx cfg.base_rules with
  | Option.none => .ok Option.none
  | some base =>
    match harmonize_talk_with_gesture cfg ctx (pre_harmonize ctx cfg base) with
    | .error e => .error e
    | .ok r => .ok (some (post_harmonize ctx cfg r))

/-- `recommend` with the caller-visible context mutation made explicit: the
first component is the caller's Context after the call. -/
def recommend_run (cfg : Config) (ctx : Context) :
    Context × Except String (Option Recommendation) :=
  (effective_context ctx, recommend_core cfg (effective_context ctx))

/-- `recommend` from rules_engine.py, end to end. -/
def recommend (cfg : Config) (ctx : Context) : Except String (Option Recommendation) :=
  recommend_core cfg (effective_context ctx)

/-- The shout of a successful, non-empty result. -/
def shout_of (e : Except String (Option Recommendation)) : Option Shout :=
  match e with
  | .ok (some r) => some r.shout
  | _ => Option.none

/-- The recommendation of a successful, non-empty result (a placeholder
otherwise); lets witnesses name the computed recommendation. -/
def rec_or_default (e : Except String (Option Recommendation)) : Recommendation :=
  match e with
  | .ok (some r) => r
  | _ => { mentality := Mentality.balanced, team_talk := "", gesture := "", shout := Shout.none }

/- ## Concrete evaluation inputs

Closed contexts, rule packs and working recommendations used by the
counterexample and witness theorems below. -/

/-- A pre-match base rule (stage-only condition). -/
def prematch_rule : PlaybookRule :=
  { when := { stage := MatchStage.preMatch }
    recommendation :=
      { mentality := Mentality.balanced
        teamTalk := "Focus on your jobs."
        gesture := "Hands Together"
        shout := Shout.none } }

/-- A reaction rule carrying a shout: Nervous → Encourage. -/
def nervous_reaction_rule : ReactionRule :=
  { reaction := PlayerReaction.nervous
    adjustment :=
      { shout := some Shout.encourage
        notes := ["Reassure the nervous player."] } }

/-- Config with one pre-match base rule and the Nervous→Encourage reaction. -/
def cfg_reaction : Config :=
  { base_rules := [prematch_rule]
    reaction_rules := [nervous_reaction_rule] }

/-- Pre-match home favourite with a nervous player. -/
def ctx_nervous : Context :=
  { stage := MatchStage.preMatch
    fav_status := FavStatus.favourite
    venue := Venue.home
    player_reactions := [PlayerReaction.nervous] }

/-- Config with only the pre-match base rule (no reactions). -/
def cfg_plain : Config :=
  { base_rules := [prematch_rule] }

/-- Pre-match home favourite, no reactions. -/
def ctx_plain : Context :=
  { stage := MatchStage.preMatch
    fav_status := FavStatus.favourite
    venue := Venue.home }

/-- Early-stage context with numeric goals 1-0 and no caller score state. -/
def ctx_goals : Context :=
  { stage := MatchStage.early
    fav_status := FavStatus.favourite
    venue := Venue.home
    team_goals := some 1
    opponent_goals := some 0 }

/-- Away derby final with a red card and three yellows (drives the aggressive
tone weight to the 0.01 floor before normalization). -/
def ctx_floor : Context :=
  { stage := MatchStage.mid
    fav_status := FavStatus.favourite
    venue := Venue.away
    special_situations := [SpecialSituation.derby, SpecialSituation.final]
    cards_red := 1
    cards_yellow := 3 }

/-- Away favourite trailing at half-time (ht delta -1). -/
def ctx_away_fav_ht : Context :=
  { stage := MatchStage.halfTime
    fav_status := FavStatus.favourite
    venue := Venue.away
    score_state := some ScoreState.losing
    ht_score_delta := some (-1) }

/-- Pre-match home favourite used for the confidence-rounding counterexample. -/
def ctx_conf : Context :=
  { stage := MatchStage.preMatch
    fav_status := FavStatus.favourite
    venue := Venue.home }

/-- Very-late drawing favourite with a huge table gap (strong-favourite tier). -/
def ctx_strongfav_late : Context :=
  { stage := MatchStage.veryLate
    fav_status := FavStatus.favourite
    venue := Venue.home
    score_state := some ScoreState.drawing
    team_position := some 1
    opponent_position := some 20 }

/-- Early drawing favourite (no table data, even tier). -/
def ctx_drawing_early : Context :=
  { stage := MatchStage.early
    fav_status := FavStatus.favourite
    venue := Venue.home
    score_state := some ScoreState.drawing }

/-- A working recommendation whose shout is unset. -/
def rec_noshout : Recommendation :=
  { mentality := Mentality.balanced
    team_talk := "x"
    gesture := "Hands Together"
    shout := Shout.none }

/-- Catalog/statement bank that reaches the broken tone-fallback tail of
`_select_talk_phrase`: gesture "GestA" carries tone "calm" but has no
statements of its own, while its tone sibling "GestB" has one. -/
def cfg_bug : Config :=
  { catalogs := [("calm", ["GestA", "GestB"])]
    statements := { preMatch := [("GestB", ["Line1"])] } }

/-- Pre-match context for the harmonization bug. -/
def ctx_bug : Context :=
  { stage := MatchStage.preMatch
    fav_status := FavStatus.favourite
    venue := Venue.home }

/-- Working recommendation with an empty team talk and gesture "GestA". -/
def rec_bug : Recommendation :=
  { mentality := Mentality.balanced
    team_talk := ""
    gesture := "GestA"
    shout := Shout.none }

/- ## Helper lemmas -/

/-- Rounding to 3 decimals moves a rational by at most half an ulp. -/
theorem abs_round3_sub (q : ℚ) : |round3 q - q| ≤ 1/2000 := by
  have h := abs_sub_round (q * 1000)
  unfold round3
  have he : ((round (q * 1000) : ℤ) : ℚ) / 1000 - q =
      (((round (q * 1000) : ℤ) : ℚ) - q * 1000) / 1000 := by ring
  rw [he, abs_div, abs_sub_comm] at *
  have h1000 : |(1000 : ℚ)| = 1000 := by norm_num
  rw [h1000]
  rw [abs_sub_comm] at h
  linarith [(div_le_div_iff_of_pos_right (show (0:ℚ) < 1000 by norm_num)).mpr h]

/-- `round3` is monotone. -/
theorem round3_mono {p q : ℚ} (h : p ≤ q) : round3 p ≤ round3 q := by
  unfold round3
  have : round (p * 1000) ≤ round (q * 1000) := by
    rw [round_eq, round_eq]
    exact Int.floor_le_floor (by linarith)
  have hc : ((round (p * 1000) : ℤ) : ℚ) ≤ ((round (q * 1000) : ℤ) : ℚ) := by
    exact_mod_cast this
  linarith

/-- `round3 0 = 0`. -/
theorem round3_zero : round3 0 = 0 := by
  unfold round3
  norm_num

/-- `round3` of a nonnegative rational is nonnegative. -/
theorem round3_nonneg {q : ℚ} (h : 0 ≤ q) : 0 ≤ round3 q := by
  have := round3_mono h
  rwa [round3_zero] at this

/-- The normalization floor is at least 0.01. -/
theorem clamp_floor_ge (q : ℚ) : 1/100 ≤ clamp_floor q := le_max_right _ _

/-- The normalization floor is monotone. -/
theorem clamp_floor_mono {p q : ℚ} (h : p ≤ q) : clamp_floor p ≤ clamp_floor q :=
  max_le_max h le_rfl

/- ## C9 (code_bug) -/

/-- C9: the claim says `harmonize_talk_with_gesture` (via `_select_talk_phrase`)
never raises, and the code comments agree ("Default to first statement"), but
the tone-fallback tail of `_select_talk_phrase` returns the unassigned local
`items` (rules_engine.py lines 270-273): at this concrete pre-match input the
harmonization stage raises `UnboundLocalError`. -/
theorem C9_harmonize_raises :
    harmonize_talk_with_gesture cfg_bug ctx_bug rec_bug =
      .error "UnboundLocalError: items" := by
  rfl

/- ## C10 (corrected): `recommend` mutates the caller's Context -/

/-- C10 counterexample: the claim says `recommend` leaves every field of the
input Context unchanged, but with goals 1-0 and no caller score state the
caller's Context ends the call with `score_state = Winning`. -/
theorem C10_counterexample :
    ((recommend_run cfg_plain ctx_goals).1).score_state = some ScoreState.winning ∧
    ctx_goals.score_state = Option.none := by
  exact ⟨rfl, rfl⟩

/-- C10 amended: `recommend` leaves every field of the caller's Context
unchanged except `score_state`, which is overwritten from the numeric goals
when both are present, and `fav_status`, which is overwritten when
auto-detection is requested. -/
theorem C10_context_mutation_amended (cfg : Config) (ctx : Context) :
    (recommend_run cfg ctx).1 = effective_context ctx
    ∧ (effective_context ctx).stage = ctx.stage
    ∧ (effective_context ctx).venue = ctx.venue
    ∧ (effective_context ctx).special_situations = ctx.special_situations
    ∧ (effective_context ctx).player_reactions = ctx.player_reactions
    ∧ (effective_context ctx).team_position = ctx.team_position
    ∧ (effective_context ctx).opponent_position = ctx.opponent_position
    ∧ (effective_context ctx).team_form = ctx.team_form
    ∧ (effective_context ctx).opponent_form = ctx.opponent_form
    ∧ (effective_context ctx).team_goals = ctx.team_goals
    ∧ (effective_context ctx).opponent_goals = ctx.opponent_goals
    ∧ (effective_context ctx).auto_fav_status = ctx.auto_fav_status
    ∧ (effective_context ctx).preferred_talk_audience = ctx.preferred_talk_audience
    ∧ (effective_context ctx).morale_trend = ctx.morale_trend
    ∧ (effective_context ctx).ht_score_delta = ctx.ht_score_delta
    ∧ (effective_context ctx).xthreat_delta = ctx.xthreat_delta
    ∧ (effective_context ctx).cards_yellow = ctx.cards_yellow
    ∧ (effective_context ctx).cards_red = ctx.cards_red
    ∧ (effective_context ctx).injuries = ctx.injuries
    ∧ (effective_context ctx).unit_ratings = ctx.unit_ratings
    ∧ (effective_context ctx).possession_pct = ctx.possession_pct
    ∧ (effective_context ctx).shots_for = ctx.shots_for
    ∧ (effective_context ctx).shots_against = ctx.shots_against
    ∧ (effective_context ctx).shots_on_target_for = ctx.shots_on_target_for
    ∧ (effective_context ctx).shots_on_target_against = ctx.shots_on_target_against
    ∧ (effective_context ctx).xg_for = ctx.xg_for
    ∧ (effective_context ctx).xg_against = ctx.xg_against
    ∧ ((ctx.team_goals = Option.none ∨ ctx.opponent_goals = Option.none) →
        (effective_context ctx).score_state = ctx.score_state)
    ∧ (ctx.auto_fav_status = false → (effective_context ctx).fav_status = ctx.fav_status) := by
  refine ⟨rfl, ?_⟩
  unfold effective_context auto_fav derive_score_state
  rcases hg : ctx.team_goals with _ | t <;> rcases ho : ctx.opponent_goals with _ | o <;>
    by_cases ha : ctx.auto_fav_status <;>
      simp_all

/- ## C3 (confirmed): score state derived from numeric goals -/

/-- C3: whenever both goal counts are present, the context every pipeline stage
receives carries the score state recomputed from the goals (Winning/Losing/
Drawing by comparison), regardless of the caller-supplied value, and
`recommend` is exactly the pipeline run on that context. -/
theorem C3_score_state_derivation (cfg : Config) (ctx : Context) (tg og : Int)
    (h1 : ctx.team_goals = some tg) (h2 : ctx.opponent_goals = some og) :
    (effective_context ctx).score_state =
      some (if tg > og then ScoreState.winning
            else if tg < og then ScoreState.losing else ScoreState.drawing)
    ∧ recommend cfg ctx = recommend_core cfg (effective_context ctx) := by
  constructor
  · unfold effective_context auto_fav derive_score_state
    rw [h1, h2]
    dsimp only
    by_cases ha : ctx.auto_fav_status <;> simp [ha]
  · rfl

/-- C3 witness at goals 1-0 with no caller score state. -/
theorem C3_witness :
    (effective_context ctx_goals).score_state = some ScoreState.winning ∧
    recommend cfg_plain ctx_goals = recommend_core cfg_plain (effective_context ctx_goals) :=
  C3_score_state_derivation cfg_plain ctx_goals 1 0 rfl rfl

/- ## C6 (corrected): the disallow tone for an away favourite trailing at HT -/

/-- C6 counterexample: at half-time, away, favourite, ht delta -1 the claim
says the disallow list contains "encourage"; it does not (it is exactly
["motivational"]). -/
theorem C6_counterexample :
    "encourage" ∉ (select_tones ctx_away_fav_ht).2 ∧
    (select_tones ctx_away_fav_ht).2 = ["motivational"] ∧
    ctx_away_fav_ht.stage = MatchStage.halfTime ∧
    ctx_away_fav_ht.venue = Venue.away ∧
    ctx_away_fav_ht.fav_status = FavStatus.favourite ∧
    ctx_away_fav_ht.ht_score_delta = some (-1) := by
  refine ⟨by decide, by decide, rfl, rfl, rfl, rfl⟩

/-- Membership after an unconditional append step. -/
theorem mem_add_tone {cond : Prop} [Decidable cond] {t x : String} {l : List String}
    (h : x ∈ add_tone cond t l) : x ∈ l ∨ x = t := by
  unfold add_tone at h
  split at h
  · rcases List.mem_append.mp h with h | h
    · exact Or.inl h
    · exact Or.inr (List.mem_singleton.mp h)
  · exact Or.inl h

/-- Membership after a guarded append step. -/
theorem mem_add_tone_once {cond : Prop} [Decidable cond] {t x : String} {l : List String}
    (h : x ∈ add_tone_once cond t l) : x ∈ l ∨ x = t := by
  unfold add_tone_once at h
  split at h
  · rcases List.mem_append.mp h with h | h
    · exact Or.inl h
    · exact Or.inr (List.mem_singleton.mp h)
  · exact Or.inl h

/-- Earlier members survive an unconditional append step. -/
theorem add_tone_mem_mono {cond : Prop} [Decidable cond] {t x : String} {l : List String}
    (h : x ∈ l) : x ∈ add_tone cond t l := by
  unfold add_tone
  split
  · exact List.mem_append_left _ h
  · exact h

/-- Earlier members survive a guarded append step. -/
theorem add_tone_once_mem_mono {cond : Prop} [Decidable cond] {t x : String} {l : List String}
    (h : x ∈ l) : x ∈ add_tone_once cond t l := by
  unfold add_tone_once
  split
  · exact List.mem_append_left _ h
  · exact h

/-- A guarded append whose condition holds puts its tone in the list. -/
theorem add_tone_once_self {cond : Prop} [Decidable cond] {t : String} {l : List String}
    (hc : cond) (hn : t ∉ l) : t ∈ add_tone_once cond t l := by
  unfold add_tone_once
  rw [if_pos ⟨hc, hn⟩]
  exact List.mem_append_right _ (List.mem_singleton.mpr rfl)

/-- Every disallow-list member is "aggressive" or "motivational". -/
theorem disallow_list_mem (ctx : Context) (x : String) (h : x ∈ disallow_list ctx) :
    x = "aggressive" ∨ x = "motivational" := by
  unfold disallow_list at h
  rcases mem_add_tone_once h with h | h; swap; · exact Or.inl h
  unfold disallow_step6 at h
  rcases mem_add_tone_once h with h | h; swap; · exact Or.inl h
  unfold disallow_step5 at h
  rcases mem_add_tone_once h with h | h; swap; · exact Or.inr h
  unfold disallow_step4 at h
  rcases mem_add_tone_once h with h | h; swap; · exact Or.inl h
  unfold disallow_step3 at h
  rcases mem_add_tone_once h with h | h; swap; · exact Or.inl h
  unfold disallow_step2 at h
  rcases mem_add_tone h with h | h; swap; · exact Or.inl h
  unfold disallow_step1 at h
  rcases mem_add_tone h with h | h; swap; · exact Or.inl h
  cases h

/-- Before the motivational step, every member is "aggressive". -/
theorem disallow_step4_mem (ctx : Context) (x : String) (h : x ∈ disallow_step4 ctx) :
    x = "aggressive" := by
  unfold disallow_step4 at h
  rcases mem_add_tone_once h with h | h; swap; · exact h
  unfold disallow_step3 at h
  rcases mem_add_tone_once h with h | h; swap; · exact h
  unfold disallow_step2 at h
  rcases mem_add_tone h with h | h; swap; · exact h
  unfold disallow_step1 at h
  rcases mem_add_tone h with h | h; swap; · exact h
  cases h

/-- C6 amended: for an away favourite trailing at half-time the disallow list
contains the tone "motivational" (the praise-reading risk the guardrail
blocks); the tone "encourage" is never a member of any disallow list the
engine produces. -/
theorem C6_disallow_amended (ctx : Context) :
    "encourage" ∉ (select_tones ctx).2
    ∧ (ctx.stage = MatchStage.halfTime → ctx.venue = Venue.away →
       ctx.fav_status = FavStatus.favourite → ht_delta_negative ctx = true →
       "motivational" ∈ (select_tones ctx).2) := by
  constructor
  · intro h
    rcases disallow_list_mem ctx _ h with h | h <;> simp at h
  · intro h1 h2 h3 h4
    have hmem : "motivational" ∈ disallow_step5 ctx := by
      apply add_tone_once_self ⟨h1, h2, h3, h4⟩
      intro hc
      have := disallow_step4_mem ctx _ hc
      simp at this
    show "motivational" ∈ disallow_list ctx
    unfold disallow_list disallow_step6
    exact add_tone_once_mem_mono (add_tone_once_mem_mono hmem)

/- ## C5 (corrected): tone weights -/

/-- The five rounded quotients of `_normalize` sum to 1 within five half-ulps. -/
theorem normalize_sum_near_one (w : ToneWeights) :
    |weights_sum (normalize w) - 1| ≤ 1/400 := by
  have h1 := clamp_floor_ge w.calm
  have h2 := clamp_floor_ge w.assertive
  have h3 := clamp_floor_ge w.motivational
  have h4 := clamp_floor_ge w.relaxed
  have h5 := clamp_floor_ge w.aggressive
  simp only [normalize, weights_sum]
  set c1 := clamp_floor w.calm with hc1
  set c2 := clamp_floor w.assertive with hc2
  set c3 := clamp_floor w.motivational with hc3
  set c4 := clamp_floor w.relaxed with hc4
  set c5 := clamp_floor w.aggressive with hc5
  set s := c1 + c2 + c3 + c4 + c5 with hs
  have hs0 : (0:ℚ) < s := by rw [hs]; linarith
  have hsum : c1/s + c2/s + c3/s + c4/s + c5/s = 1 := by
    field_simp
  have e1 := abs_le.mp (abs_round3_sub (c1/s))
  have e2 := abs_le.mp (abs_round3_sub (c2/s))
  have e3 := abs_le.mp (abs_round3_sub (c3/s))
  have e4 := abs_le.mp (abs_round3_sub (c4/s))
  have e5 := abs_le.mp (abs_round3_sub (c5/s))
  rw [abs_le]
  constructor
  · linarith [e1.1, e2.1, e3.1, e4.1, e5.1]
  · linarith [e1.2, e2.2, e3.2, e4.2, e5.2]

/-- C5 counterexample: the claim says every weight in the returned map is
≥ 0.01, but for an away derby final with a red card and three yellows the
normalized aggressive weight is 0.002. -/
theorem C5_counterexample :
    ((select_tones ctx_floor).1).aggressive = 1/500 ∧
    ((select_tones ctx_floor).1).aggressive < 1/100 := by
  have hdw : dynamic_weights ctx_floor =
      ⟨19/10, 9/10, 17/10, 6/5, -(1/20)⟩ := by
    simp [dynamic_weights, base_weights, venue_step, status_step, derby_step,
      final_step, cup_step, morale_step, delta_step, xthreat_step, red_step,
      yellow_step, injury_step, stage_delta, ctx_floor]
    norm_num
  have h : ((select_tones ctx_floor).1).aggressive = 1/500 := by
    show (normalize (dynamic_weights ctx_floor)).aggressive = 1/500
    rw [hdw]
    norm_num [normalize, clamp_floor, weights_sum, round3, round_eq]
  exact ⟨h, by rw [h]; norm_num⟩

/-- C5 amended: the 0.01 floor applies to the weights before normalization
(each clamped weight is ≥ 0.01); the returned map is the normalization of the
computed dynamic weights, unmodified by the disallow list, and its five
weights sum to 1 within ±0.0025 (3-decimal rounding of five quotients); an
individual normalized weight may still fall below 0.01. -/
theorem C5_tone_weights_amended (ctx : Context) :
    |weights_sum (select_tones ctx).1 - 1| ≤ 1/400
    ∧ 1/100 ≤ clamp_floor (dynamic_weights ctx).calm
    ∧ 1/100 ≤ clamp_floor (dynamic_weights ctx).assertive
    ∧ 1/100 ≤ clamp_floor (dynamic_weights ctx).motivational
    ∧ 1/100 ≤ clamp_floor (dynamic_weights ctx).relaxed
    ∧ 1/100 ≤ clamp_floor (dynamic_weights ctx).aggressive
    ∧ (select_tones ctx).1 = normalize (dynamic_weights ctx) := by
  refine ⟨normalize_sum_near_one _, clamp_floor_ge _, clamp_floor_ge _,
    clamp_floor_ge _, clamp_floor_ge _, clamp_floor_ge _, rfl⟩

/- ## C8 (corrected): the in-play shout for a drawing favourite -/

/-- C8 counterexample: the claim says a drawing favourite with no shout set
always gets Demand More, but a strong-favourite tier drawing at VeryLate gets
Focus. -/
theorem C8_counterexample :
    (choose_inplay_shout ctx_strongfav_late rec_noshout).shout = Shout.focus ∧
    (choose_inplay_shout ctx_strongfav_late rec_noshout).shout ≠ Shout.demandMore ∧
    is_talk_stage ctx_strongfav_late.stage = false ∧
    ctx_strongfav_late.score_state = some ScoreState.drawing ∧
    ctx_strongfav_late.fav_status = FavStatus.favourite ∧
    rec_noshout.shout = Shout.none := by
  have htier : (detect_matchup_tier ctx_strongfav_late).1 = FavTier.strongFavourite := by
    have hsc : advantage_score ctx_strongfav_late = 5 := by
      norm_num [advantage_score, form_points, ctx_strongfav_late, min_def, max_def]
    show tier_of_score (advantage_score ctx_strongfav_late) = FavTier.strongFavourite
    rw [hsc]
    norm_num [tier_of_score]
  have h : (choose_inplay_shout ctx_strongfav_late rec_noshout).shout = Shout.focus := by
    unfold choose_inplay_shout
    rw [if_neg (by decide : ¬ is_talk_stage ctx_strongfav_late.stage = true)]
    rw [if_neg (by decide : ¬ rec_noshout.shout ≠ Shout.none)]
    rw [show ctx_strongfav_late.score_state = some ScoreState.drawing from rfl]
    dsimp only
    rw [if_pos (show ctx_strongfav_late.fav_status = FavStatus.favourite from rfl)]
    rw [if_pos ⟨rfl, htier⟩]
  exact ⟨h, by rw [h]; simp, rfl, rfl, rfl, rfl⟩

/-- C8 amended: for an in-play drawing favourite with no shout set, the
in-play shout-selection stage sets Demand More — except at VeryLate with a
strong-favourite matchup tier, where it sets Focus to stay composed. -/
theorem C8_inplay_shout_amended (ctx : Context) (r : Recommendation)
    (h1 : is_talk_stage ctx.stage = false)
    (h2 : ctx.score_state = some ScoreState.drawing)
    (h3 : ctx.fav_status = FavStatus.favourite)
    (h4 : r.shout = Shout.none)
    (h5 : ¬(ctx.stage = MatchStage.veryLate ∧
            (detect_matchup_tier ctx).1 = FavTier.strongFavourite)) :
    (choose_inplay_shout ctx r).shout = Shout.demandMore := by
  unfold choose_inplay_shout
  rw [h1, h2]
  simp only [Bool.false_eq_true, if_false, h4, h3]
  rw [if_pos trivial, if_neg h5]
  simp

/-- C8 witness: an early drawing favourite with no shout set gets Demand More. -/
theorem C8_witness :
    (choose_inplay_shout ctx_drawing_early rec_noshout).shout = Shout.demandMore :=
  C8_inplay_shout_amended ctx_drawing_early rec_noshout rfl rfl rfl rfl (by decide)

/- ## C4 (confirmed): the base-rule matcher -/

/-- `pick_top` is none exactly on the empty candidate list. -/
theorem pick_top_eq_none_iff (l : List (Int × PlaybookRule)) :
    pick_top l = Option.none ↔ l = [] := by
  cases l with
  | nil => simp [pick_top]
  | cons c cs =>
    unfold pick_top
    cases pick_top cs with
    | none => simp
    | some b =>
      dsimp only
      split <;> simp

/-- `pick_top` returns the first candidate of maximal score: its score bounds
every candidate, and every earlier candidate is strictly smaller. -/
theorem pick_top_max (l : List (Int × PlaybookRule)) (s : Int) (r : PlaybookRule)
    (h : pick_top l = some (s, r)) :
    (∀ p ∈ l, p.1 ≤ s) ∧
    ∃ pre post, l = pre ++ (s, r) :: post ∧ ∀ p ∈ pre, p.1 < s := by
  induction l generalizing s r with
  | nil => simp [pick_top] at h
  | cons c cs ih =>
    unfold pick_top at h
    split at h
    · rename_i hct
      injection h with h
      subst h
      have hcs : cs = [] := (pick_top_eq_none_iff cs).mp hct
      subst hcs
      exact ⟨by simp, [], [], rfl, by simp⟩
    · rename_i b hct
      split at h
      · rename_i hgt
        injection h with h
        subst h
        obtain ⟨hmax, pre, post, hl, hpre⟩ := ih _ _ hct
        refine ⟨?_, c :: pre, post, by rw [hl, List.cons_append], ?_⟩
        · intro p hp
          rcases List.mem_cons.mp hp with rfl | hp
          · exact le_of_lt hgt
          · exact hmax p hp
        · intro p hp
          rcases List.mem_cons.mp hp with rfl | hp
          · exact hgt
          · exact hpre p hp
      · rename_i hgt
        injection h with h
        subst h
        obtain ⟨hmax, _⟩ := ih _ _ hct
        push_neg at hgt
        refine ⟨?_, [], cs, rfl, by simp⟩
        intro p hp
        rcases List.mem_cons.mp hp with rfl | hp
        · exact le_rfl
        · exact le_trans (hmax p hp) hgt

/-- C4: `pick_base_rule` returns the recommendation built from a candidate of
maximal specificity among the non-eliminated candidates; on ties the first
candidate in rule-list order wins; and with no surviving candidate the result
is `Option.none` (an empty result, not an error — every function involved is
total). -/
theorem C4_pick_base_rule_spec (ctx : Context) (rules : List PlaybookRule) :
    (pick_base_rule ctx rules = Option.none ↔ candidates ctx rules = [])
    ∧ (∀ s r, pick_top (candidates ctx rules) = some (s, r) →
        pick_base_rule ctx rules = some (base_from_rule r)
        ∧ (∀ p ∈ candidates ctx rules, p.1 ≤ s)
        ∧ ∃ pre post, candidates ctx rules = pre ++ (s, r) :: post ∧
            ∀ p ∈ pre, p.1 < s) := by
  constructor
  · unfold pick_base_rule
    rw [Option.map_eq_none']
    exact pick_top_eq_none_iff _
  · intro s r h
    obtain ⟨hmax, hex⟩ := pick_top_max _ _ _ h
    refine ⟨?_, hmax, hex⟩
    unfold pick_base_rule
    rw [h]
    rfl

/- ## Stage preservation lemmas (for C1 and C2) -/

/-- The in-place writes of `recommend` do not change the stage. -/
theorem effective_context_stage (ctx : Context) :
    (effective_context ctx).stage = ctx.stage := by
  unfold effective_context auto_fav derive_score_state
  rcases hg : ctx.team_goals with _ | t <;> rcases ho : ctx.opponent_goals with _ | o <;>
    simp only [hg, ho] <;> split <;> rfl

/-- The in-place writes of `recommend` do not change the player reactions. -/
theorem effective_context_player_reactions (ctx : Context) :
    (effective_context ctx).player_reactions = ctx.player_reactions := by
  unfold effective_context auto_fav derive_score_state
  rcases hg : ctx.team_goals with _ | t <;> rcases ho : ctx.opponent_goals with _ | o <;>
    simp only [hg, ho] <;> split <;> rfl

/-- At talk stages the force-to-none stage leaves the shout None. -/
theorem talk_force_shout (ctx : Context) (r : Recommendation)
    (h : is_talk_stage ctx.stage = true) :
    (talk_stage_force_shout ctx r).shout = Shout.none := by
  unfold talk_stage_force_shout
  rw [if_pos h]

/-- The context-stats stage never touches the shout at talk stages. -/
theorem stats_shout_talk (ctx : Context) (r : Recommendation)
    (h : is_talk_stage ctx.stage = true) :
    (apply_context_stats_adjustments ctx r).shout = r.shout := by
  unfold apply_context_stats_adjustments
  split_ifs <;> simp_all

/-- The auto-detection note stage never touches the shout. -/
theorem auto_note_shout (ctx : Context) (r : Recommendation) :
    (auto_fav_note ctx r).shout = r.shout := by
  unfold auto_fav_note
  split_ifs <;> rfl

/-- The in-play shout selector is the identity at talk stages. -/
theorem choose_inplay_talk (ctx : Context) (r : Recommendation)
    (h : is_talk_stage ctx.stage = true) :
    choose_inplay_shout ctx r = r := by
  unfold choose_inplay_shout
  rw [if_pos h]

/-- The late-game mentality stage never touches the shout. -/
theorem time_shout (ctx : Context) (r : Recommendation) :
    (apply_time_score_heuristics ctx r).shout = r.shout := by
  unfold apply_time_score_heuristics
  split_ifs <;> rfl

/-- The live-stats stage never touches the shout at talk stages. -/
theorem live_stats_shout_talk (ctx : Context) (r : Recommendation)
    (h : is_talk_stage ctx.stage = true) :
    (apply_live_stats_heuristics ctx r).shout = r.shout := by
  have hlate : ¬ (ctx.stage = MatchStage.late ∨ ctx.stage = MatchStage.veryLate) := by
    rintro (hs | hs) <;> rw [hs] at h <;> simp [is_talk_stage] at h
  have h1 : (live_outshoot ctx r).shout = r.shout := by
    unfold live_outshoot
    split_ifs <;> simp_all
  have h2 : (live_siege ctx (live_outshoot ctx r)).shout = r.shout := by
    unfold live_siege
    split_ifs <;> simp_all
  have h3 : (live_possession ctx (live_siege ctx (live_outshoot ctx r))).shout = r.shout := by
    unfold live_possession
    split_ifs <;> simp_all
  have h4 : (live_xg ctx (live_possession ctx (live_siege ctx (live_outshoot ctx r)))).shout = r.shout := by
    unfold live_xg
    split_ifs <;> simp_all
  unfold apply_live_stats_heuristics
  split_ifs <;> simp_all

/-- The reaction stage preserves the shout when no applicable reaction
adjustment carries one. -/
theorem reaction_fold_shout (ctx : Context) (rules : List ReactionRule)
    (hre : ∀ rr ∈ rules, rr.reaction ∈ ctx.player_reactions →
      rr.adjustment.shout = Option.none) :
    ∀ acc : Recommendation × Int,
      ((rules.foldl (apply_reaction_step ctx) acc).1).shout = acc.1.shout := by
  induction rules with
  | nil => intro acc; rfl
  | cons rr rest ih =>
    intro acc
    rw [List.foldl_cons]
    rw [ih (fun x hx hmem => hre x (List.mem_cons_of_mem _ hx) hmem)]
    unfold apply_reaction_step
    split
    · rename_i hmem
      have hs : rr.adjustment.shout = Option.none := hre rr (List.mem_cons_self _ _) hmem
      simp [hs]
    · rfl

/-- `apply_reaction_adjustments` preserves the shout when no applicable
reaction adjustment carries one. -/
theorem reactions_shout (ctx : Context) (r : Recommendation) (rules : List ReactionRule)
    (hre : ∀ rr ∈ rules, rr.reaction ∈ ctx.player_reactions →
      rr.adjustment.shout = Option.none) :
    (apply_reaction_adjustments ctx r rules).shout = r.shout := by
  have h := reaction_fold_shout ctx rules hre (r, mentality_to_value r.mentality)
  unfold apply_reaction_adjustments reaction_folded
  split_ifs <;> simp_all [reaction_folded]

/-- The gesture matrix never touches the shout. -/
theorem adjust_gesture_shout (ctx : Context) (r : Recommendation) :
    (adjust_gesture_for_context ctx r).shout = r.shout := by
  unfold adjust_gesture_for_context
  split_ifs <;> rfl

/-- The tier-informed talk stage never touches the shout. -/
theorem tier_informed_shout (ctx : Context) (r : Recommendation) :
    (apply_tier_informed ctx r).shout = r.shout := by
  have h1 : ∀ x : Recommendation, (tier_soften ctx x).shout = x.shout := by
    intro x; unfold tier_soften; split_ifs <;> rfl
  have h2 : ∀ x : Recommendation, (tier_push ctx x).shout = x.shout := by
    intro x; unfold tier_push; split_ifs <;> rfl
  unfold apply_tier_informed
  split_ifs <;> simp [h1, h2]

/-- Statement harmonization never touches the shout. -/
theorem harmonize_ok_shout (cfg : Config) (ctx : Context) (r rr : Recommendation)
    (h : harmonize_talk_with_gesture cfg ctx r = .ok rr) :
    rr.shout = r.shout := by
  unfold harmonize_talk_with_gesture at h
  split at h
  · injection h with h; subst h; rfl
  split at h
  · injection h with h; subst h; rfl
  · split at h
    · exact absurd h (by simp)
    · injection h with h; subst h; rfl
    · injection h with h; subst h; rfl

/-- The stats overlay stage never touches the shout. -/
theorem adapt_shout (cfg : Config) (ctx : Context) (r : Recommendation) :
    (adapt_talk_phrase_with_stats cfg ctx r).shout = r.shout := by
  unfold adapt_talk_phrase_with_stats
  split
  · rfl
  split
  · rfl
  split
  · rfl
  · split
    · rfl
    · split
      · rfl
      · split <;> rfl

/-- The pre-match cap never touches the shout. -/
theorem cap_shout (ctx : Context) (r : Recommendation) :
    (enforce_prematch_mentality_cap ctx r).shout = r.shout := by
  unfold enforce_prematch_mentality_cap
  split_ifs <;> rfl

/-- The audience override never touches the shout. -/
theorem audience_shout (ctx : Context) (r : Recommendation) :
    (audience_override ctx r).shout = r.shout := by
  unfold audience_override
  split_ifs <;> rfl

/-- The tone-metadata stage never touches the shout. -/
theorem tone_meta_shout (cfg : Config) (ctx : Context) (r : Recommendation) :
    (tone_metadata_stage cfg ctx r).shout = r.shout := rfl

/-- The unit/nudges stage never touches the shout. -/
theorem unit_shout (ctx : Context) (r : Recommendation) :
    (unit_nudges_stage ctx r).shout = r.shout := rfl

/-- The reaction-aware notes stage never touches the shout. -/
theorem reaction_notes_shout (ctx : Context) (r : Recommendation) :
    (reaction_aware_notes ctx r).shout = r.shout := by
  unfold reaction_aware_notes
  split_ifs <;> rfl

/-- Defaulting the audience never touches the shout. -/
theorem default_aud_shout (ctx : Context) (r : Recommendation) :
    (default_audience ctx r).shout = r.shout := by
  unfold default_audience
  split_ifs <;> rfl

/-- At talk stages the pipeline part before harmonization ends with shout None
when no applicable reaction adjustment carries a shout. -/
theorem pre_harmonize_shout (ctx : Context) (cfg : Config) (base : Recommendation)
    (hst : is_talk_stage ctx.stage = true)
    (hre : ∀ rr ∈ cfg.reaction_rules, rr.reaction ∈ ctx.player_reactions →
      rr.adjustment.shout = Option.none) :
    (pre_harmonize ctx cfg base).shout = Shout.none := by
  unfold pre_harmonize
  rw [tier_informed_shout, adjust_gesture_shout, reactions_shout _ _ _ hre,
    live_stats_shout_talk _ _ hst, time_shout, choose_inplay_talk _ _ hst,
    auto_note_shout, stats_shout_talk _ _ hst, talk_force_shout _ _ hst]

/-- The pipeline part after harmonization preserves the shout. -/
theorem post_harmonize_shout (ctx : Context) (cfg : Config) (r : Recommendation) :
    (post_harmonize ctx cfg r).shout = r.shout := by
  unfold post_harmonize
  rw [default_aud_shout, reaction_notes_shout, unit_shout, tone_meta_shout,
    audience_shout, cap_shout, adapt_shout]

/- ## C1 (corrected): talk-stage shouts and reaction rules -/

/-- C1 counterexample: the claim says the shout is always "None" at talk
stages even when a reaction rule with a shout applies; but the force-to-none
stage runs before the reaction stage, so at pre-match with a Nervous player
and the Nervous→Encourage reaction rule the returned shout is Encourage
(exactly what the repository's own test
`test_reaction_adjustment_changes_shout` asserts). -/
theorem C1_counterexample :
    shout_of (recommend cfg_reaction ctx_nervous) = some Shout.encourage ∧
    is_talk_stage ctx_nervous.stage = true := by
  exact ⟨rfl, rfl⟩

/-- C1 amended: at the three talk stages the shout of the returned
recommendation is "None" provided no applicable reaction rule carries a shout
override; the force-to-none stage runs before the reaction-adjustment stage,
so an applicable reaction shout survives it. -/
theorem C1_talk_shout_amended (cfg : Config) (ctx : Context) (r : Recommendation)
    (hstage : is_talk_stage ctx.stage = true)
    (hre : ∀ rr ∈ cfg.reaction_rules, rr.reaction ∈ ctx.player_reactions →
      rr.adjustment.shout = Option.none)
    (hok : recommend cfg ctx = .ok (some r)) :
    r.shout = Shout.none := by
  unfold recommend recommend_core at hok
  have hst : is_talk_stage (effective_context ctx).stage = true := by
    rw [effective_context_stage]; exact hstage
  have hre' : ∀ rr ∈ cfg.reaction_rules,
      rr.reaction ∈ (effective_context ctx).player_reactions →
      rr.adjustment.shout = Option.none := by
    intro rr hmem hr
    exact hre rr hmem (by rwa [effective_context_player_reactions] at hr)
  split at hok
  · exact absurd hok (by simp)
  · rename_i base hpick
    split at hok
    · exact absurd hok (by simp)
    · rename_i rr hharm
      injection hok with hok
      injection hok with hok
      subst hok
      rw [post_harmonize_shout]
      rw [harmonize_ok_shout _ _ _ _ hharm]
      exact pre_harmonize_shout _ _ _ hst hre'

/-- C1 witness: pre-match with no reaction rules yields shout "None". -/
theorem C1_witness :
    (rec_or_default (recommend cfg_plain ctx_plain)).shout = Shout.none :=
  C1_talk_shout_amended cfg_plain ctx_plain _ rfl
    (fun _ h _ => absurd h (List.not_mem_nil _)) rfl

/- ## C2 (confirmed): mentality bounds -/

/-- Every mentality value is within [-2, 3]. -/
theorem mentality_value_range (m : Mentality) :
    -2 ≤ mentality_to_value m ∧ mentality_to_value m ≤ 3 := by
  cases m <;> exact ⟨by decide, by decide⟩

/-- After the pre-match cap the mentality value is at most Positive (+1). -/
theorem cap_mentality_le (ctx : Context) (x : Recommendation)
    (h : ctx.stage = MatchStage.preMatch) :
    mentality_to_value (enforce_prematch_mentality_cap ctx x).mentality ≤ 1 := by
  unfold enforce_prematch_mentality_cap
  rw [if_neg (by simp [h])]
  split_ifs with h2
  · simp [mentality_to_value]
  · cases hx : x.mentality <;> simp_all [mentality_to_value]

/-- The audience override never touches the mentality. -/
theorem audience_mentality (ctx : Context) (r : Recommendation) :
    (audience_override ctx r).mentality = r.mentality := by
  unfold audience_override
  split_ifs <;> rfl

/-- The tone-metadata stage never touches the mentality. -/
theorem tone_meta_mentality (cfg : Config) (ctx : Context) (r : Recommendation) :
    (tone_metadata_stage cfg ctx r).mentality = r.mentality := rfl

/-- The unit/nudges stage never touches the mentality. -/
theorem unit_mentality (ctx : Context) (r : Recommendation) :
    (unit_nudges_stage ctx r).mentality = r.mentality := rfl

/-- The reaction-aware notes stage never touches the mentality. -/
theorem reaction_notes_mentality (ctx : Context) (r : Recommendation) :
    (reaction_aware_notes ctx r).mentality = r.mentality := by
  unfold reaction_aware_notes
  split_ifs <;> rfl

/-- Defaulting the audience never touches the mentality. -/
theorem default_aud_mentality (ctx : Context) (r : Recommendation) :
    (default_audience ctx r).mentality = r.mentality := by
  unfold default_audience
  split_ifs <;> rfl

/-- C2: every recommendation `recommend` returns has a mentality in
[-2, +3] (the clamped range Defensive..Very Attacking), and at pre-match the
mentality never exceeds Positive (+1). -/
theorem C2_mentality_range (cfg : Config) (ctx : Context) (r : Recommendation)
    (hok : recommend cfg ctx = .ok (some r)) :
    (-2 ≤ mentality_to_value r.mentality ∧ mentality_to_value r.mentality ≤ 3) ∧
    (ctx.stage = MatchStage.preMatch → mentality_to_value r.mentality ≤ 1) := by
  refine ⟨mentality_value_range _, ?_⟩
  intro hpm
  unfold recommend recommend_core at hok
  split at hok
  · exact absurd hok (by simp)
  · rename_i base hpick
    split at hok
    · exact absurd hok (by simp)
    · rename_i rr hharm
      injection hok with hok
      injection hok with hok
      subst hok
      have hpm' : (effective_context ctx).stage = MatchStage.preMatch := by
        rw [effective_context_stage]; exact hpm
      unfold post_harmonize
      rw [default_aud_mentality, reaction_notes_mentality, unit_mentality,
        tone_meta_mentality, audience_mentality]
      exact cap_mentality_le _ _ hpm'

/-- C2 witness at the concrete pre-match input. -/
theorem C2_witness :
    (-2 ≤ mentality_to_value (rec_or_default (recommend cfg_plain ctx_plain)).mentality ∧
     mentality_to_value (rec_or_default (recommend cfg_plain ctx_plain)).mentality ≤ 3) ∧
    (ctx_plain.stage = MatchStage.preMatch →
     mentality_to_value (rec_or_default (recommend cfg_plain ctx_plain)).mentality ≤ 1) :=
  C2_mentality_range cfg_plain ctx_plain _ rfl

/- ## C7 (corrected): confidence and risk scoring

Every weight step keeps the calm weight nondecreasing and the aggressive
weight nonincreasing, so calm ≥ 1 ≥ aggressive always holds; with the
first-maximum tie-breaking of `max(items, key=weight)` the top tone is
therefore never "aggressive", and "angry" is not in the vocabulary at all. -/

/-- The venue step never lowers calm and never raises aggressive. -/
theorem venue_step_mono (ctx : Context) (w : ToneWeights) :
    w.calm ≤ (venue_step ctx w).calm ∧ (venue_step ctx w).aggressive ≤ w.aggressive := by
  unfold venue_step
  split_ifs <;> refine ⟨?_, ?_⟩ <;> simp <;> linarith

/-- The favourite/underdog step never lowers calm and never raises aggressive. -/
theorem status_step_mono (ctx : Context) (w : ToneWeights) :
    w.calm ≤ (status_step ctx w).calm ∧ (status_step ctx w).aggressive ≤ w.aggressive := by
  unfold status_step
  split_ifs <;> refine ⟨?_, ?_⟩ <;> simp

/-- The derby step never lowers calm and never raises aggressive. -/
theorem derby_step_mono (ctx : Context) (w : ToneWeights) :
    w.calm ≤ (derby_step ctx w).calm ∧ (derby_step ctx w).aggressive ≤ w.aggressive := by
  unfold derby_step
  split_ifs <;> refine ⟨?_, ?_⟩ <;> simp <;> linarith

/-- The final step never lowers calm and never raises aggressive. -/
theorem final_step_mono (ctx : Context) (w : ToneWeights) :
    w.calm ≤ (final_step ctx w).calm ∧ (final_step ctx w).aggressive ≤ w.aggressive := by
  unfold final_step
  split_ifs <;> refine ⟨?_, ?_⟩ <;> simp <;> linarith

/-- The cup step never lowers calm and never raises aggressive. -/
theorem cup_step_mono (ctx : Context) (w : ToneWeights) :
    w.calm ≤ (cup_step ctx w).calm ∧ (cup_step ctx w).aggressive ≤ w.aggressive := by
  unfold cup_step
  split_ifs <;> refine ⟨?_, ?_⟩ <;> simp

/-- The morale step never lowers calm and never raises aggressive. -/
theorem morale_step_mono (ctx : Context) (w : ToneWeights) :
    w.calm ≤ (morale_step ctx w).calm ∧ (morale_step ctx w).aggressive ≤ w.aggressive := by
  unfold morale_step
  split
  · exact ⟨le_rfl, le_rfl⟩
  · split_ifs <;> refine ⟨?_, ?_⟩ <;> simp <;> linarith

/-- The score-delta step never lowers calm and never raises aggressive. -/
theorem delta_step_mono (ctx : Context) (w : ToneWeights) :
    w.calm ≤ (delta_step ctx w).calm ∧ (delta_step ctx w).aggressive ≤ w.aggressive := by
  unfold delta_step
  split
  · exact ⟨le_rfl, le_rfl⟩
  · split_ifs <;> refine ⟨?_, ?_⟩ <;> simp <;> linarith

/-- The expected-threat step never lowers calm and never raises aggressive. -/
theorem xthreat_step_mono (ctx : Context) (w : ToneWeights) :
    w.calm ≤ (xthreat_step ctx w).calm ∧ (xthreat_step ctx w).aggressive ≤ w.aggressive := by
  unfold xthreat_step
  split
  · exact ⟨le_rfl, le_rfl⟩
  · split_ifs <;> refine ⟨?_, ?_⟩ <;> simp <;> linarith

/-- The red-card step never lowers calm and never raises aggressive. -/
theorem red_step_mono (ctx : Context) (w : ToneWeights) :
    w.calm ≤ (red_step ctx w).calm ∧ (red_step ctx w).aggressive ≤ w.aggressive := by
  unfold red_step
  split_ifs <;> refine ⟨?_, ?_⟩ <;> simp <;> linarith

/-- The yellow-card step never lowers calm and never raises aggressive. -/
theorem yellow_step_mono (ctx : Context) (w : ToneWeights) :
    w.calm ≤ (yellow_step ctx w).calm ∧ (yellow_step ctx w).aggressive ≤ w.aggressive := by
  unfold yellow_step
  split_ifs <;> refine ⟨?_, ?_⟩ <;> simp <;> linarith

/-- The injury step never lowers calm and never raises aggressive. -/
theorem injury_step_mono (ctx : Context) (w : ToneWeights) :
    w.calm ≤ (injury_step ctx w).calm ∧ (injury_step ctx w).aggressive ≤ w.aggressive := by
  unfold injury_step
  split_ifs <;> refine ⟨?_, ?_⟩ <;> simp <;> linarith

/-- Before normalization, calm is at least 1 and aggressive at most 1. -/
theorem dynamic_weights_bounds (ctx : Context) :
    1 ≤ (dynamic_weights ctx).calm ∧ (dynamic_weights ctx).aggressive ≤ 1 := by
  set w1 := venue_step ctx ⟨1, 1, 1, 1, 1⟩ with hw1
  set w2 := status_step ctx w1 with hw2
  set w3 := derby_step ctx w2 with hw3
  set w4 := final_step ctx w3 with hw4
  set w5 := cup_step ctx w4 with hw5
  set w6 := morale_step ctx w5 with hw6
  set w7 := delta_step ctx w6 with hw7
  set w8 := xthreat_step ctx w7 with hw8
  set w9 := red_step ctx w8 with hw9
  set w10 := yellow_step ctx w9 with hw10
  set w11 := injury_step ctx w10 with hw11
  have hd : dynamic_weights ctx = w11 := by
    rw [hw11, hw10, hw9, hw8, hw7, hw6, hw5, hw4, hw3, hw2, hw1]
    rfl
  obtain ⟨a1, b1⟩ := venue_step_mono ctx ⟨1, 1, 1, 1, 1⟩
  obtain ⟨a2, b2⟩ := status_step_mono ctx w1
  obtain ⟨a3, b3⟩ := derby_step_mono ctx w2
  obtain ⟨a4, b4⟩ := final_step_mono ctx w3
  obtain ⟨a5, b5⟩ := cup_step_mono ctx w4
  obtain ⟨a6, b6⟩ := morale_step_mono ctx w5
  obtain ⟨a7, b7⟩ := delta_step_mono ctx w6
  obtain ⟨a8, b8⟩ := xthreat_step_mono ctx w7
  obtain ⟨a9, b9⟩ := red_step_mono ctx w8
  obtain ⟨a10, b10⟩ := yellow_step_mono ctx w9
  obtain ⟨a11, b11⟩ := injury_step_mono ctx w10
  rw [← hw1] at a1 b1
  rw [← hw2] at a2 b2
  rw [← hw3] at a3 b3
  rw [← hw4] at a4 b4
  rw [← hw5] at a5 b5
  rw [← hw6] at a6 b6
  rw [← hw7] at a7 b7
  rw [← hw8] at a8 b8
  rw [← hw9] at a9 b9
  rw [← hw10] at a10 b10
  rw [← hw11] at a11 b11
  have a1' : (1 : ℚ) ≤ w1.calm := by simpa using a1
  have b1' : w1.aggressive ≤ (1 : ℚ) := by simpa using b1
  rw [hd]
  exact ⟨by linarith, by linarith⟩

/-- Every field of a normalized weight map is nonnegative. -/
theorem normalize_nonneg (w : ToneWeights) :
    0 ≤ (normalize w).calm ∧ 0 ≤ (normalize w).assertive ∧
    0 ≤ (normalize w).motivational ∧ 0 ≤ (normalize w).relaxed ∧
    0 ≤ (normalize w).aggressive := by
  have h1 := clamp_floor_ge w.calm
  have h2 := clamp_floor_ge w.assertive
  have h3 := clamp_floor_ge w.motivational
  have h4 := clamp_floor_ge w.relaxed
  have h5 := clamp_floor_ge w.aggressive
  have hs : (0 : ℚ) ≤ clamp_floor w.calm + clamp_floor w.assertive +
      clamp_floor w.motivational + clamp_floor w.relaxed + clamp_floor w.aggressive := by
    linarith
  exact ⟨round3_nonneg (div_nonneg (by linarith) hs),
    round3_nonneg (div_nonneg (by linarith) hs),
    round3_nonneg (div_nonneg (by linarith) hs),
    round3_nonneg (div_nonneg (by linarith) hs),
    round3_nonneg (div_nonneg (by linarith) hs)⟩

/-- Normalization preserves "aggressive ≤ calm". -/
theorem normalize_aggr_le_calm (w : ToneWeights) (h : w.aggressive ≤ w.calm) :
    (normalize w).aggressive ≤ (normalize w).calm := by
  have h1 := clamp_floor_ge w.calm
  have h2 := clamp_floor_ge w.assertive
  have h3 := clamp_floor_ge w.motivational
  have h4 := clamp_floor_ge w.relaxed
  have h5 := clamp_floor_ge w.aggressive
  have hs : (0 : ℚ) < clamp_floor w.calm + clamp_floor w.assertive +
      clamp_floor w.motivational + clamp_floor w.relaxed + clamp_floor w.aggressive := by
    linarith
  exact round3_mono ((div_le_div_iff_of_pos_right hs).mpr (clamp_floor_mono h))

/-- The top item is one of the five (tone, weight) pairs. -/
theorem top_tone_cases (w : ToneWeights) :
    top_tone_item w = ("calm", w.calm) ∨ top_tone_item w = ("assertive", w.assertive) ∨
    top_tone_item w = ("motivational", w.motivational) ∨
    top_tone_item w = ("relaxed", w.relaxed) ∨
    top_tone_item w = ("aggressive", w.aggressive) := by
  unfold top_tone_item tone_items
  simp only [List.tail_cons, List.foldl_cons, List.foldl_nil]
  split_ifs <;> simp

/-- Under "aggressive ≤ calm" the first-maximum top tone is never
"aggressive" (calm precedes it in dict order with at least its weight). -/
theorem top_tone_ne_aggressive (w : ToneWeights) (h : w.aggressive ≤ w.calm) :
    (top_tone_item w).1 ≠ "aggressive" := by
  unfold top_tone_item tone_items
  simp only [List.tail_cons, List.foldl_cons, List.foldl_nil]
  split_ifs <;> simp_all <;> linarith

/-- The top tone of the selected weights is never "aggressive". -/
theorem select_top_ne_aggressive (ctx : Context) :
    (top_tone_item (select_tones ctx).1).1 ≠ "aggressive" := by
  have hb := dynamic_weights_bounds ctx
  exact top_tone_ne_aggressive _ (normalize_aggr_le_calm _ (hb.2.trans hb.1))

/-- The top weight of the selected weights is nonnegative. -/
theorem top_tone_w_nonneg (ctx : Context) :
    0 ≤ (top_tone_item (select_tones ctx).1).2 := by
  obtain ⟨n1, n2, n3, n4, n5⟩ := normalize_nonneg (dynamic_weights ctx)
  rcases top_tone_cases ((select_tones ctx).1) with h | h | h | h | h <;> rw [h]
  · exact n1
  · exact n2
  · exact n3
  · exact n4
  · exact n5

/-- C7 counterexample: the claim says confidence equals
clamp(0.6×top-weight + 0.4×synergy, 0, 1), but for a pre-match home
favourite with gesture "Hands Together" the code's confidence is the
3-decimal rounding 0.288 of the clamp value 0.2876, so the two differ. -/
theorem C7_counterexample :
    (confidence_risk [] ctx_conf "Hands Together").confidence = 36/125 ∧
    spec_confidence (confidence_risk [] ctx_conf "Hands Together").top_w
      (score_synergy [] (confidence_risk [] ctx_conf "Hands Together").top
        "Hands Together" ctx_conf) = 719/2500 ∧
    (confidence_risk [] ctx_conf "Hands Together").confidence ≠
      spec_confidence (confidence_risk [] ctx_conf "Hands Together").top_w
        (score_synergy [] (confidence_risk [] ctx_conf "Hands Together").top
          "Hands Together" ctx_conf) := by
  have hdw : dynamic_weights ctx_conf = ⟨1, 7/5, 13/10, 1, 1⟩ := by
    simp [dynamic_weights, base_weights, venue_step, status_step, derby_step,
      final_step, cup_step, morale_step, delta_step, xthreat_step, red_step,
      yellow_step, injury_step, stage_delta, ctx_conf]
    norm_num
  have hw : (select_tones ctx_conf).1 = ⟨7/40, 123/500, 57/250, 7/40, 7/40⟩ := by
    show normalize (dynamic_weights ctx_conf) = _
    rw [hdw]
    norm_num [normalize, clamp_floor, weights_sum, round3, round_eq]
  have hti : top_tone_item ((select_tones ctx_conf).1) = ("assertive", 123/500) := by
    rw [hw]
    norm_num [top_tone_item, tone_items, List.foldl_cons, List.foldl_nil]
  have hsyn : score_synergy [] "assertive" "Hands Together" ctx_conf = 7/20 := by
    simp [score_synergy, gesture_tone, ctx_conf]
    norm_num [round3, round_eq, min_def, max_def]
  have hconf : (confidence_risk [] ctx_conf "Hands Together").confidence = 36/125 := by
    show round3 (min 1 (3/5 * (top_tone_item ((select_tones ctx_conf).1)).2 +
        2/5 * score_synergy [] (top_tone_item ((select_tones ctx_conf).1)).1
          "Hands Together" ctx_conf)) = 36/125
    rw [hti]
    norm_num [hsyn, round3, round_eq, min_def]
  have htw : (confidence_risk [] ctx_conf "Hands Together").top_w = 123/500 := by
    show (top_tone_item ((select_tones ctx_conf).1)).2 = 123/500
    rw [hti]
  have htp : (confidence_risk [] ctx_conf "Hands Together").top = "assertive" := by
    show (top_tone_item ((select_tones ctx_conf).1)).1 = "assertive"
    rw [hti]
  have hspec : spec_confidence (123/500 : ℚ) (7/20) = 719/2500 := by
    norm_num [spec_confidence, min_def, max_def]
  refine ⟨hconf, ?_, ?_⟩
  · rw [htw, htp, hsyn, hspec]
  · rw [hconf, htw, htp, hsyn, hspec]
    norm_num

/-- C7 amended: the code's confidence is the 3-decimal rounding of the
spec's clamp formula (the lower clamp bound is redundant), and the risk
categories are as claimed once "aggressive" is read as the code's literal
"angry": since the top tone is never "aggressive" (nor "angry"), "bold"
holds exactly for an assertive or aggressive top with confidence ≥ 0.45, a
calm/encourage/relaxed top yields "safe", and otherwise "neutral". -/
theorem C7_confidence_risk_amended (cats : List (String × List String))
    (ctx : Context) (g : String) :
    (confidence_risk cats ctx g).confidence =
      round3 (spec_confidence (confidence_risk cats ctx g).top_w
        (score_synergy cats (confidence_risk cats ctx g).top g ctx))
    ∧ ((confidence_risk cats ctx g).risk = "bold" ↔
        ((confidence_risk cats ctx g).top = "assertive" ∨
         (confidence_risk cats ctx g).top = "aggressive") ∧
        (confidence_risk cats ctx g).confidence ≥ 9/20)
    ∧ ((confidence_risk cats ctx g).top = "calm" ∨
       (confidence_risk cats ctx g).top = "encourage" ∨
       (confidence_risk cats ctx g).top = "relaxed" →
       (confidence_risk cats ctx g).risk = "safe")
    ∧ (¬(((confidence_risk cats ctx g).top = "assertive" ∨
          (confidence_risk cats ctx g).top = "aggressive") ∧
         (confidence_risk cats ctx g).confidence ≥ 9/20) →
       ¬((confidence_risk cats ctx g).top = "calm" ∨
         (confidence_risk cats ctx g).top = "encourage" ∨
         (confidence_risk cats ctx g).top = "relaxed") →
       (confidence_risk cats ctx g).risk = "neutral") := by
  have htop : (confidence_risk cats ctx g).top =
      (top_tone_item (select_tones ctx).1).1 := rfl
  have htw : (confidence_risk cats ctx g).top_w =
      (top_tone_item (select_tones ctx).1).2 := rfl
  have hconf : (confidence_risk cats ctx g).confidence =
      round3 (min 1 (3/5 * (top_tone_item (select_tones ctx).1).2 +
        2/5 * score_synergy cats (top_tone_item (select_tones ctx).1).1 g ctx)) := rfl
  have hrisk : (confidence_risk cats ctx g).risk =
      (if ((top_tone_item (select_tones ctx).1).1 = "assertive" ∨
           (top_tone_item (select_tones ctx).1).1 = "angry") ∧
          round3 (min 1 (3/5 * (top_tone_item (select_tones ctx).1).2 +
            2/5 * score_synergy cats (top_tone_item (select_tones ctx).1).1 g ctx)) ≥ 9/20
       then "bold"
       else if (top_tone_item (select_tones ctx).1).1 = "calm" ∨
               (top_tone_item (select_tones ctx).1).1 = "encourage" ∨
               (top_tone_item (select_tones ctx).1).1 = "relaxed"
       then "safe" else "neutral") := rfl
  have hnonneg := top_tone_w_nonneg ctx
  have hne := select_top_ne_aggressive ctx
  have hcases := top_tone_cases ((select_tones ctx).1)
  have hsyn0 : (0 : ℚ) ≤
      score_synergy cats (top_tone_item (select_tones ctx).1).1 g ctx := by
    unfold score_synergy
    exact le_max_left _ _
  set ti := top_tone_item (select_tones ctx).1 with hti_def
  have hangry : ti.1 ≠ "angry" := by
    rcases hcases with h | h | h | h | h <;> rw [h] <;> simp
  refine ⟨?_, ?_, ?_, ?_⟩
  · rw [hconf, htw, htop]
    have hE : (0 : ℚ) ≤ 3/5 * ti.2 + 2/5 * score_synergy cats ti.1 g ctx := by
      have h1 : (0 : ℚ) ≤ 3/5 * ti.2 := mul_nonneg (by norm_num) hnonneg
      have h2 : (0 : ℚ) ≤ 2/5 * score_synergy cats ti.1 g ctx :=
        mul_nonneg (by norm_num) hsyn0
      linarith
    unfold spec_confidence
    rw [max_eq_right (le_min (by norm_num) hE)]
  · constructor
    · intro hb
      rw [hrisk] at hb
      split_ifs at hb with hA hB
      · refine ⟨?_, by rw [hconf]; exact hA.2⟩
        rcases hA.1 with h | h
        · exact Or.inl (htop.trans h)
        · exact absurd h hangry
      · exact absurd hb (by simp)
      · exact absurd hb (by simp)
    · rintro ⟨hT, hC⟩
      rcases hT with h | h
      · have hA : (ti.1 = "assertive" ∨ ti.1 = "angry") ∧
            round3 (min 1 (3/5 * ti.2 +
              2/5 * score_synergy cats ti.1 g ctx)) ≥ 9/20 :=
          ⟨Or.inl (htop.symm.trans h), by rw [← hconf]; exact hC⟩
        rw [hrisk, if_pos hA]
      · exact absurd (htop.symm.trans h) hne
  · intro hS
    rw [htop] at hS
    have hnA : ¬((ti.1 = "assertive" ∨ ti.1 = "angry") ∧
        round3 (min 1 (3/5 * ti.2 +
          2/5 * score_synergy cats ti.1 g ctx)) ≥ 9/20) := by
      rintro ⟨hx, -⟩
      rcases hx with hy | hy
      · rcases hS with h | h | h <;> rw [h] at hy <;> simp at hy
      · exact hangry hy
    rw [hrisk, if_neg hnA, if_pos hS]
  · intro hnB hnS
    rw [htop] at hnS
    have hnA : ¬((ti.1 = "assertive" ∨ ti.1 = "angry") ∧
        round3 (min 1 (3/5 * ti.2 +
          2/5 * score_synergy cats ti.1 g ctx)) ≥ 9/20) := by
      rintro ⟨hx, hc⟩
      apply hnB
      rcases hx with hy | hy
      · exact ⟨Or.inl (htop.trans hy), by rw [hconf]; exact hc⟩
      · exact absurd hy hangry
    rw [hrisk, if_neg hnA, if_neg hnS]

end Playbook
